import Mathlib

/-!
Verification of the o0_o.posix Ansible collection against its
natural-language specification.

The development shallowly embeds the relevant Python code of the
collection (plugins/action_utils/posix_base.py,
plugins/action/lineinfile_dedupe.py, plugins/filter/mount.py,
plugins/action/mounts.py, plugins/action/facts.py) as executable Lean
definitions, and proves or refutes the specification claims about them.

Python strings are modelled as Lean Strings; Python dicts with
statically known keys are modelled as structures with Option-valued
fields (none = key absent), and dicts with dynamic keys as
insertion-ordered association lists, matching CPython dict semantics.
Raised exceptions (AnsibleActionFail and friends) are modelled with
Except String.
-/

/-! ## Python string primitives -/

/-- Model of CPython str.lower restricted to the character-wise mapping
(ASCII-correct, which covers every string the plugins compare). -/
def pyLower (s : String) : String :=
  String.mk (s.data.map Char.toLower)

/-- Needle is a prefix of the haystack (character lists). -/
def strStartsAux : List Char → List Char → Bool
  | [], _ => true
  | _ :: _, [] => false
  | a :: as, b :: bs => a = b && strStartsAux as bs

/-- Model of Python str.startswith. -/
def strStarts (s pre : String) : Bool :=
  strStartsAux pre.data s.data

/-- Model of Python str.endswith. -/
def strEnds (s suf : String) : Bool :=
  strStartsAux suf.data.reverse s.data.reverse

/-- Needle occurs contiguously inside the haystack (character lists). -/
def strHasAux (needle : List Char) : List Char → Bool
  | [] => strStartsAux needle []
  | c :: rest => strStartsAux needle (c :: rest) || strHasAux needle rest

/-- Model of the Python membership test: needle in hay. -/
def strHas (hay needle : String) : Bool :=
  strHasAux needle.data hay.data

/-- Characters CPython str.splitlines treats as line boundaries. -/
def pyLineBreak (c : Char) : Bool :=
  c = '\n' || c = '\r' || c = Char.ofNat 0x0b || c = Char.ofNat 0x0c ||
  c = Char.ofNat 0x1c || c = Char.ofNat 0x1d || c = Char.ofNat 0x1e ||
  c = Char.ofNat 0x85 || c = Char.ofNat 0x2028 || c = Char.ofNat 0x2029

/-- Worker for the splitlines model; the accumulator holds the current
line reversed.  A "\r\n" pair counts as a single boundary. -/
def splitLinesAux : List Char → List Char → List String
  | [], acc => if acc.isEmpty then [] else [String.mk acc.reverse]
  | '\r' :: '\n' :: rest, acc => String.mk acc.reverse :: splitLinesAux rest []
  | c :: rest, acc =>
      if pyLineBreak c then String.mk acc.reverse :: splitLinesAux rest []
      else splitLinesAux rest (c :: acc)

/-- Model of CPython str.splitlines (without keepends). -/
def pySplitLines (s : String) : List String :=
  splitLinesAux s.data []

/-- Model of "\n".join(lines). -/
def joinNL : List String → String
  | [] => ""
  | [x] => x
  | x :: y :: r => x ++ "\n" ++ joinNL (y :: r)

/-- Python truthiness of an optional string (None and "" are falsy). -/
def truthy : Option String → Bool
  | none => false
  | some s => s ≠ ""

example : pySplitLines "a\nb" = ["a", "b"] := by decide
example : pySplitLines "a\n" = ["a"] := by decide
example : pySplitLines "" = [] := by decide
example : pySplitLines "\n" = [""] := by decide
example : pySplitLines "a\r\nb" = ["a", "b"] := by decide
example : strHas "hello world" "lo wo" = true := by decide
example : strHas "abc" "" = true := by decide
example : strStarts "/dev/sda" "/dev/" = true := by decide
example : strEnds "x-fuse" "-fuse" = true := by decide

/-! ## Interpreter-missing probe (posix_base._is_interpreter_missing) -/

/-- Dynamic Python value as it can appear in a result dict field. -/
inductive PyVal where
  | pstr (s : String)
  | pint (n : Int)
  | pbool (b : Bool)
  | pnone
  | pother
deriving DecidableEq

/-- Argument passed to _is_interpreter_missing: either not a dict at
all, or a dict whose relevant fields "rc" and "msg" are optional
(none = key absent) and dynamically typed. -/
inductive CmdResultVal where
  | nondict (v : PyVal)
  | dict (rc : Option PyVal) (msg : Option PyVal)
deriving DecidableEq

/-- Python equality test of the "rc" field with the int literal 127. -/
def rcIs127 : Option PyVal → Bool
  | some (.pint n) => n = 127
  | _ => false

/-- Canary substring from posix_base._is_interpreter_missing. -/
def canaryStr : String :=
  "The module failed to execute correctly, you probably need to set " ++
  "the interpreter"

/-- Embedding of PosixBase._is_interpreter_missing.  The sticky
force_raw assignment is a side effect on the caller and does not
affect the returned Bool, so it is not part of this pure model. -/
def isInterpreterMissing : CmdResultVal → Bool
  | .nondict _ => false
  | .dict rc msg =>
    if rcIs127 rc = false then false
    else
      match msg.getD (.pstr "") with
      | .pstr m => strHas (pyLower m) (pyLower canaryStr)
      | _ => false

/-! ## Raw-fallback file read (posix_base._cat) -/

/-- Remove every carriage-return character, as in
stdout.replace("\r", ""). -/
def removeCarriageReturns (s : String) : String :=
  String.mk (s.data.filter (fun c => c ≠ '\r'))

/-- Model of Python str.rstrip("\r\n"). -/
def rstripCRLF (s : String) : String :=
  String.mk (s.data.reverse.dropWhile (fun c => c = '\r' || c = '\n')).reverse

/-- Stdout the command plugin hands back for cat FILE: the file bytes
with trailing newline characters stripped (strip_empty_ends defaults
to true in the command plugin). -/
def catStdout (fileBytes : String) : String :=
  rstripCRLF fileBytes

/-- Content field produced by PosixBase._cat on a successful read:
the stdout with every "\r" removed. -/
def catContent (fileBytes : String) : String :=
  removeCarriageReturns (catStdout fileBytes)

/-- Content field produced by the native slurp path of the slurp64
plugin: the base64-decoded file bytes, unmodified. -/
def slurpNativeContent (fileBytes : String) : String :=
  fileBytes

/-- Helper: the content _cat returns never contains a carriage return. -/
theorem catContent_no_cr (s : String) : '\r' ∉ (catContent s).data := by
  show '\r' ∉ ((rstripCRLF s).data.filter (fun c => c ≠ '\r'))
  intro hmem
  have hp := (List.mem_filter.mp hmem).2
  simp at hp

/-- C10: the raw-fallback file read (_cat) removes every carriage
return from the returned content, so for any file whose bytes contain
"\r" the content returned in raw mode differs both from the file's
actual bytes and from what the native slurp path returns. -/
theorem cat_removes_carriage_returns (s : String) (h : '\r' ∈ s.data) :
    catContent s ≠ s ∧ catContent s ≠ slurpNativeContent s := by
  refine ⟨fun he => ?_, fun he => ?_⟩
  · exact catContent_no_cr s (by rw [he]; exact h)
  · exact catContent_no_cr s (by rw [he]; exact h)

/-- Witness for C10 at the concrete CRLF file "a\r\nb". -/
theorem cat_removes_carriage_returns_witness :
    '\r' ∈ ("a\r\nb" : String).data ∧
    catContent "a\r\nb" ≠ "a\r\nb" ∧
    catContent "a\r\nb" ≠ slurpNativeContent "a\r\nb" :=
  ⟨by decide,
   (cat_removes_carriage_returns "a\r\nb" (by decide)).1,
   (cat_removes_carriage_returns "a\r\nb" (by decide)).2⟩

/-- C3: _is_interpreter_missing returns true for a dict result with rc
exactly 127 whose msg contains the canary substring case-insensitively;
false when rc is not 127 (missing, non-int or another value) even with
the same message; false when the message is unrelated; and false for
any non-dict or malformed (non-string msg) result. Totality of the
Bool-valued model reflects that the Python code never raises. -/
theorem interpreter_missing_spec :
    (∀ m : String, strHas (pyLower m) (pyLower canaryStr) = true →
      isInterpreterMissing (.dict (some (.pint 127)) (some (.pstr m))) = true) ∧
    (∀ (rc msgv : Option PyVal), rcIs127 rc = false →
      isInterpreterMissing (.dict rc msgv) = false) ∧
    (∀ (rc : Option PyVal) (m : String),
      strHas (pyLower m) (pyLower canaryStr) = false →
      isInterpreterMissing (.dict rc (some (.pstr m))) = false) ∧
    (∀ v : PyVal, isInterpreterMissing (.nondict v) = false) ∧
    (∀ (rc : Option PyVal) (mv : PyVal), (∀ s : String, mv ≠ .pstr s) →
      isInterpreterMissing (.dict rc (some mv)) = false) := by
  refine ⟨?_, ?_, ?_, ?_, ?_⟩
  · intro m h
    simp [isInterpreterMissing, rcIs127, h]
  · intro rc msgv h
    simp [isInterpreterMissing, h]
  · intro rc m h
    cases hrc : rcIs127 rc <;> simp [isInterpreterMissing, hrc, h]
  · intro v
    rfl
  · intro rc mv h
    cases hrc : rcIs127 rc <;> cases mv <;> simp [isInterpreterMissing, hrc]
    exact absurd rfl (h _)

/-- Witness for C3 at concrete results: the canary with rc 127, the
canary with rc 0, an unrelated message with rc 127, a non-dict value,
and a dict whose msg is an int. -/
theorem interpreter_missing_spec_witness :
    isInterpreterMissing (.dict (some (.pint 127)) (some (.pstr canaryStr))) = true ∧
    isInterpreterMissing (.dict (some (.pint 0)) (some (.pstr canaryStr))) = false ∧
    isInterpreterMissing
      (.dict (some (.pint 127)) (some (.pstr "unexpected failure message"))) = false ∧
    isInterpreterMissing (.nondict .pnone) = false ∧
    isInterpreterMissing (.dict (some (.pint 127)) (some (.pint 3))) = false :=
  ⟨interpreter_missing_spec.1 canaryStr (by decide),
   interpreter_missing_spec.2.1 _ _ (by decide),
   interpreter_missing_spec.2.2.1 _ _ (by decide),
   interpreter_missing_spec.2.2.2.1 _,
   interpreter_missing_spec.2.2.2.2 _ _ (fun _ h => PyVal.noConfusion h)⟩

/-! ## Association lists: insertion-ordered CPython dict model -/

/-- Dict lookup: d.get(key). -/
def lookupAssoc {α : Type} : List (String × α) → String → Option α
  | [], _ => none
  | (k, v) :: rest, key => if k = key then some v else lookupAssoc rest key

/-- Dict assignment d[key] = v: updates in place, preserving the
position of an existing key, else appends (CPython insertion order). -/
def setAssoc {α : Type} : List (String × α) → String → α → List (String × α)
  | [], key, v => [(key, v)]
  | (k, w) :: rest, key, v =>
      if k = key then (k, v) :: rest else (k, w) :: setAssoc rest key v

/-- Dict deletion del d[key] (no-op when the key is absent). -/
def removeAssoc {α : Type} : List (String × α) → String → List (String × α)
  | [], _ => []
  | (k, w) :: rest, key =>
      if k = key then rest else (k, w) :: removeAssoc rest key

/-- Dict key list, in insertion order. -/
def assocKeys {α : Type} (m : List (String × α)) : List String :=
  m.map Prod.fst

theorem lookupAssoc_setAssoc_self {α : Type} (m : List (String × α))
    (k : String) (v : α) : lookupAssoc (setAssoc m k v) k = some v := by
  induction m with
  | nil => simp [setAssoc, lookupAssoc]
  | cons hd tl ih =>
    obtain ⟨k', w⟩ := hd
    by_cases h : k' = k <;> simp [setAssoc, lookupAssoc, h, ih]

theorem lookupAssoc_setAssoc_ne {α : Type} (m : List (String × α))
    (k k' : String) (v : α) (h : k ≠ k') :
    lookupAssoc (setAssoc m k v) k' = lookupAssoc m k' := by
  induction m with
  | nil => simp [setAssoc, lookupAssoc, h]
  | cons hd tl ih =>
    obtain ⟨k'', w⟩ := hd
    by_cases h2 : k'' = k <;> simp [setAssoc, lookupAssoc, h2, ih]
    · simp [h2, h]

theorem lookupAssoc_removeAssoc_ne {α : Type} (m : List (String × α))
    (k k' : String) (h : k ≠ k') :
    lookupAssoc (removeAssoc m k) k' = lookupAssoc m k' := by
  induction m with
  | nil => simp [removeAssoc]
  | cons hd tl ih =>
    obtain ⟨k'', w⟩ := hd
    by_cases h2 : k'' = k
    · subst h2
      simp [removeAssoc, lookupAssoc, h]
    · simp [removeAssoc, lookupAssoc, h2, ih]

theorem assocKeys_setAssoc {α : Type} (m : List (String × α))
    (k : String) (v : α) :
    assocKeys (setAssoc m k v) =
      if k ∈ assocKeys m then assocKeys m else assocKeys m ++ [k] := by
  induction m with
  | nil => simp [setAssoc, assocKeys]
  | cons hd tl ih =>
    obtain ⟨k', w⟩ := hd
    by_cases h : k' = k
    · subst h
      simp [setAssoc, assocKeys]
    · simp only [setAssoc, if_neg h, assocKeys, List.map_cons]
      rw [show List.map Prod.fst (setAssoc tl k v) =
        assocKeys (setAssoc tl k v) from rfl, ih]
      by_cases h2 : k ∈ List.map Prod.fst tl
      · simp [assocKeys, List.mem_cons, h2, Ne.symm h]
      · simp [assocKeys, List.mem_cons, h2, Ne.symm h]

/-! ## Remote file probe (posix_base._pseudo_stat) -/

/-- POSIX test(1) flags used by _pseudo_stat: -e, -L, -d, -f, -b, -c,
-p, -S. -/
inductive TestFlag where
  | e | L | d | f | b | c | p | S
deriving DecidableEq

/-- Result dict of _pseudo_stat.  An Option none models the key being
absent from the dict (the Python code only adds is_symlink once the
path is known to exist, and only adds a string type when one of the
type tests matched). -/
structure PseudoStat where
  raw : Bool
  exists_ : Bool
  type_ : Option String
  is_symlink : Option Bool
deriving DecidableEq

/-- Embedding of PosixBase._pseudo_stat.  The oracle t abstracts the
remote host: t fl is true iff test with that flag on the probed path
returns rc 0.  The rawFlag mirrors the raw key copied from the first
command result. -/
def pseudoStat (rawFlag : Bool) (t : TestFlag → Bool) : Except String PseudoStat :=
  if t .e = false then
    .ok { raw := rawFlag, exists_ := false, type_ := none, is_symlink := none }
  else if t .d then
    .ok { raw := rawFlag, exists_ := true, type_ := some "directory",
          is_symlink := some (t .L) }
  else if t .f then
    .ok { raw := rawFlag, exists_ := true, type_ := some "file",
          is_symlink := some (t .L) }
  else if t .b then
    .ok { raw := rawFlag, exists_ := true, type_ := some "block",
          is_symlink := some (t .L) }
  else if t .c then
    .ok { raw := rawFlag, exists_ := true, type_ := some "char",
          is_symlink := some (t .L) }
  else if t .p then
    .ok { raw := rawFlag, exists_ := true, type_ := some "pipe",
          is_symlink := some (t .L) }
  else if t .S then
    .ok { raw := rawFlag, exists_ := true, type_ := some "socket",
          is_symlink := some (t .L) }
  else
    .error "All POSIX 'test' commands failed on the target path"

/-- C4: every record _pseudo_stat returns satisfies type = null iff
exists = false; and when the path exists but none of the POSIX type
tests succeeds, the probe raises an error instead of returning a
defaulted type. -/
theorem pseudo_stat_type_iff_exists :
    (∀ (rawFlag : Bool) (t : TestFlag → Bool) (r : PseudoStat),
      pseudoStat rawFlag t = .ok r → (r.type_ = none ↔ r.exists_ = false)) ∧
    (∀ (rawFlag : Bool) (t : TestFlag → Bool),
      t .e = true → t .d = false → t .f = false → t .b = false →
      t .c = false → t .p = false → t .S = false →
      ∃ msg, pseudoStat rawFlag t = .error msg) := by
  constructor
  · intro rawFlag t r h
    unfold pseudoStat at h
    repeat' split at h
    all_goals first
      | (injection h with h; subst h; simp)
      | exact Except.noConfusion h
  · intro rawFlag t he hd hf hb hc hp hS
    refine ⟨"All POSIX 'test' commands failed on the target path", ?_⟩
    simp [pseudoStat, he, hd, hf, hb, hc, hp, hS]

/-- Record _pseudo_stat builds for a nonexistent path. -/
def statNoent : PseudoStat :=
  { raw := false, exists_ := false, type_ := none, is_symlink := none }

/-- Record _pseudo_stat builds for an existing regular non-symlink
file. -/
def statPlainFile : PseudoStat :=
  { raw := false, exists_ := true, type_ := some "file",
    is_symlink := some false }

/-- Witness for C4: a nonexistent path (all tests fail) yields a
record with type and exists agreeing; an existing path failing all
type tests yields an error. -/
theorem pseudo_stat_type_iff_exists_witness :
    (statNoent.type_ = none ↔ statNoent.exists_ = false) ∧
    ∃ msg, pseudoStat false (fun fl => decide (fl = .e)) = .error msg :=
  ⟨pseudo_stat_type_iff_exists.1 false (fun _ => false) _ rfl,
   pseudo_stat_type_iff_exists.2 false (fun fl => decide (fl = .e))
     (by decide) (by decide) (by decide) (by decide) (by decide) (by decide)
     (by decide)⟩

/-- C9: a record returned for a nonexistent path has no is_symlink key
(and a null type), while a record returned for an existing path always
carries a boolean is_symlink. -/
theorem pseudo_stat_symlink_key :
    ∀ (rawFlag : Bool) (t : TestFlag → Bool) (r : PseudoStat),
      pseudoStat rawFlag t = .ok r →
      (r.exists_ = false → r.is_symlink = none ∧ r.type_ = none) ∧
      (r.exists_ = true → ∃ b, r.is_symlink = some b) := by
  intro rawFlag t r h
  unfold pseudoStat at h
  repeat' split at h
  all_goals first
    | (injection h with h; subst h; simp)
    | exact Except.noConfusion h

/-- Witness for C9 at a nonexistent path and at an existing regular
file. -/
theorem pseudo_stat_symlink_key_witness :
    statNoent.is_symlink = none ∧
    (∃ b, statPlainFile.is_symlink = some b) :=
  ⟨((pseudo_stat_symlink_key false (fun _ => false) _ rfl).1 rfl).1,
   (pseudo_stat_symlink_key false (fun fl => decide (fl = .e ∨ fl = .f))
     _ rfl).2 rfl⟩

/-! ## Desired permission sets and SELinux tool gating
(posix_base._check_selinux_tools) -/

/-- Desired PermissionSet: the perms dict handed to _write_file and
friends.  none models both an absent key and an explicit None value
(both are falsy under perms.get(k)). -/
structure DesiredPerms where
  owner : Option String := none
  group : Option String := none
  mode : Option String := none
  seuser : Option String := none
  serole : Option String := none
  setype : Option String := none
  selevel : Option String := none
deriving DecidableEq

/-- Truthiness of any(perms and perms.get(k) for k in
("selevel", "serole", "setype", "seuser")); an Option none perms
models a falsy perms argument. -/
def selinuxRequested : Option DesiredPerms → Bool
  | none => false
  | some p =>
      truthy p.selevel || truthy p.serole || truthy p.setype ||
      truthy p.seuser

/-- Embedding of PosixBase._check_selinux_tools.  hasChcon and
hasSemanage state whether _which resolves the respective tool on the
remote host.  On success the Bool says whether SELinux is in play and
the list collects the warnings emitted via display.warning. -/
def checkSelinuxTools (perms : Option DesiredPerms)
    (hasChcon hasSemanage : Bool) : Except String (Bool × List String) :=
  if selinuxRequested perms = false then .ok (false, [])
  else if hasChcon = false then
    if hasSemanage = false then
      .error ("SELinux parameters were specified, but both 'chcon' " ++
        "and 'semanage' are missing on the remote host")
    else
      .error ("SELinux requires 'chcon' to apply contexts, but it is " ++
        "missing on the remote host")
  else if hasSemanage = false then
    .ok (true, ["chcon is available but semanage is not — SELinux " ++
      "context changes may not persist"])
  else
    .ok (true, [])

/-- C5: with at least one SELinux field requested, missing both chcon
and semanage raises an error naming both tools, while chcon present
and semanage missing succeeds (SELinux in play) with a warning naming
semanage. -/
theorem selinux_tool_gating (p : DesiredPerms)
    (h : selinuxRequested (some p) = true) :
    (∃ msg, checkSelinuxTools (some p) false false = .error msg ∧
      strHas msg "chcon" = true ∧ strHas msg "semanage" = true) ∧
    (∃ warns, checkSelinuxTools (some p) true false = .ok (true, warns) ∧
      ∃ w ∈ warns, strHas w "semanage" = true) := by
  constructor
  · refine ⟨("SELinux parameters were specified, but both 'chcon' " ++
      "and 'semanage' are missing on the remote host"), ?_, by decide,
      by decide⟩
    simp [checkSelinuxTools, h]
  · refine ⟨["chcon is available but semanage is not — SELinux " ++
      "context changes may not persist"], ?_, ?_⟩
    · simp [checkSelinuxTools, h]
    · exact ⟨_, List.mem_singleton.mpr rfl, by decide⟩

/-- Witness for C5 at a concrete perms dict requesting only setype. -/
theorem selinux_tool_gating_witness :
    selinuxRequested (some { setype := some "httpd_sys_content_t" }) = true ∧
    (∃ msg, checkSelinuxTools (some { setype := some "httpd_sys_content_t" })
        false false = .error msg ∧
      strHas msg "chcon" = true ∧ strHas msg "semanage" = true) ∧
    (∃ warns, checkSelinuxTools (some { setype := some "httpd_sys_content_t" })
        true false = .ok (true, warns) ∧
      ∃ w ∈ warns, strHas w "semanage" = true) :=
  ⟨by decide,
   (selinux_tool_gating { setype := some "httpd_sys_content_t" } (by decide)).1,
   (selinux_tool_gating { setype := some "httpd_sys_content_t" } (by decide)).2⟩

/-! ## Facts gathering error inversion (plugins/action/facts.py) -/

/-- Kernel facts assembled from the uname probes. -/
structure KernelFacts where
  pretty : String
  name : String
  versionId : String
deriving DecidableEq

/-- Outcome of calling _get_kernel_and_hardware: either the two fact
dicts, or one of the two exception classes distinguished by the
caller's except clauses (AnsibleConnectionFailure first, then any
other Exception). -/
inductive ProbeOutcome where
  | success (kernel : KernelFacts) (arch : String)
  | connectionFailure (msg : String)
  | otherError (msg : String)
deriving DecidableEq

/-- Error propagated out of the facts run. -/
inductive FactsError where
  | connection (msg : String)
  | invalidSubset (s : String)
deriving DecidableEq

/-- One entry of the o0_os.compliance list. -/
structure ComplianceEntry where
  name : String
  pretty : String
deriving DecidableEq

/-- Result record of the facts run (flattened ansible_facts). -/
structure FactsResult where
  skipped : Bool
  skip_reason : Option String
  o0_os_kernel : Option KernelFacts
  o0_os_compliance : Option (List ComplianceEntry)
  o0_hw_arch : Option String
deriving DecidableEq

/-- Subset-selection loop of facts.run, over the validated
gather_subset list (sets modelled as duplicate-free lists). -/
def selectSubsets (gatherSubset : List String) :
    Except FactsError (List String) :=
  let allSubsets := ["kernel", "arch"]
  let init := if gatherSubset.all (fun s => strStarts s "!") then allSubsets
    else []
  gatherSubset.foldlM (fun sel s =>
    if s = "all" then .ok allSubsets
    else if s = "!all" then .ok ([] : List String)
    else if strStarts s "!" then .ok (sel.erase (s.drop 1))
    else if allSubsets.contains s then
      .ok (if sel.contains s then sel else sel ++ [s])
    else .error (.invalidSubset s)) init

/-- Embedding of facts.ActionModule.run after argument validation: the
try/except around _get_kernel_and_hardware re-raises
AnsibleConnectionFailure, turns any other exception into a skipped
(non-failed) result, and otherwise applies subset filtering.
prevCompliance is the compliance list found in existing facts. -/
def factsRun (gatherSubset : List String) (probe : ProbeOutcome)
    (prevCompliance : List ComplianceEntry) :
    Except FactsError FactsResult :=
  match probe with
  | .connectionFailure msg => .error (.connection msg)
  | .otherError _ =>
      .ok { skipped := true,
            skip_reason := some "This does not appear to be a POSIX system.",
            o0_os_kernel := none, o0_os_compliance := none,
            o0_hw_arch := none }
  | .success kernel arch =>
      match selectSubsets gatherSubset with
      | .error e => .error e
      | .ok sel =>
        let posixEntry : ComplianceEntry :=
          { name := "posix", pretty := "POSIX" }
        .ok { skipped := false, skip_reason := none,
              o0_os_kernel := if sel.contains "kernel" then some kernel
                else none,
              o0_os_compliance := if sel.contains "kernel" then
                  some (if prevCompliance.contains posixEntry then
                    prevCompliance else prevCompliance ++ [posixEntry])
                else none,
              o0_hw_arch := if sel.contains "arch" then some arch else none }

/-- C8: a connection failure during the kernel/hardware probe is always
re-raised (never turned into a result, in particular never into a
skipped "not POSIX" result), while any other probe exception yields a
non-failed result with skipped = true and the not-POSIX skip reason. -/
theorem facts_error_inversion :
    (∀ (gs : List String) (prev : List ComplianceEntry) (msg : String),
      factsRun gs (.connectionFailure msg) prev = .error (.connection msg)) ∧
    (∀ (gs : List String) (prev : List ComplianceEntry) (msg : String),
      ∃ r, factsRun gs (.otherError msg) prev = .ok r ∧ r.skipped = true ∧
        r.skip_reason =
          some "This does not appear to be a POSIX system.") ∧
    (∀ (gs : List String) (prev : List ComplianceEntry) (msg : String)
        (r : FactsResult),
      factsRun gs (.connectionFailure msg) prev ≠ .ok r) := by
  refine ⟨fun gs prev msg => rfl, fun gs prev msg => ⟨_, rfl, rfl, rfl⟩,
    fun gs prev msg r h => ?_⟩
  simp [factsRun] at h

/-! ## Line patcher (lineinfile_dedupe._ensure_line_present) -/

/-- Python list.insert(i, x): inserts before index i, appending when i
is past the end. -/
def pyInsert (l : List String) (i : Nat) (x : String) : List String :=
  match i, l with
  | 0, rest => x :: rest
  | _ + 1, [] => [x]
  | n + 1, y :: ys => y :: pyInsert ys n x

/-- Python l[i] = x (call sites guarantee i is in range). -/
def pySet : List String → Nat → String → List String
  | [], _, _ => []
  | _ :: ys, 0, x => x :: ys
  | y :: ys, n + 1, x => y :: pySet ys n x

/-- Remove the element at index i (bound already checked). -/
def pyEraseAt : List String → Nat → List String
  | [], _ => []
  | _ :: ys, 0 => ys
  | y :: ys, n + 1 => y :: pyEraseAt ys n

/-- Python del l[i] with bound check. -/
def pyDelAt (l : List String) (i : Nat) : Except String (List String) :=
  if i < l.length then .ok (pyEraseAt l i)
  else .error "IndexError: list index out of range"

/-- Insert into a descending-sorted list, keeping it descending. -/
def insertDescSorted (x : Nat) : List Nat → List Nat
  | [] => [x]
  | y :: ys => if x ≥ y then x :: y :: ys else y :: insertDescSorted x ys

/-- Model of sorted(l, reverse=True). -/
def sortDesc (l : List Nat) : List Nat :=
  l.foldr insertDescSorted []

/-- Indices of the lines satisfying p, in order (the single scanning
loop of _ensure_line_present appends to its three index lists in
index order, which this reproduces per list). -/
def idxFilterAux (p : String → Bool) : Nat → List String → List Nat
  | _, [] => []
  | i, x :: xs =>
      if p x then i :: idxFilterAux p (i + 1) xs
      else idxFilterAux p (i + 1) xs

/-- Index filter starting at 0. -/
def idxFilter (p : String → Bool) (lines : List String) : List Nat :=
  idxFilterAux p 0 lines

/-- Python truthiness of an optional int (None and 0 are falsy). -/
def natTruthy : Option Nat → Bool
  | none => false
  | some n => n ≠ 0

/-- Arguments of the state=present path of lineinfile_dedupe, after
_audit_args.  reM is the compiled self.re_m regex as a match
predicate (meaningful only when regexp is truthy); reIns is the
compiled self.re_ins insertafter/insertbefore pattern (none when the
anchor is None, BOF or EOF per _audit_args); expand models
match.expand(self.line) on a matched line when backrefs is active. -/
structure LineArgs where
  line : String
  regexp : Option String
  reM : String → Bool
  search_string : Option String
  insertafter : Option String
  insertbefore : Option String
  reIns : Option (String → Bool)
  firstmatch : Bool
  backrefs : Bool
  expand : String → String
  dedupe : Bool

/-- Embedding of ActionModule._ensure_line_present for state=present:
returns (new_lines, msg) or the raised error.  The decision phase
mirrors the source's nested conditionals; match_choice is 0 for
firstmatch and -1 (the last element) otherwise. -/
def ensureLinePresent (a : LineArgs) (lines : List String) :
    Except String (List String × String) :=
  let mc := fun (l : List Nat) =>
    if a.firstmatch then l.headD 0 else l.getLastD 0
  let match_indices :=
    if truthy a.regexp then idxFilter a.reM lines
    else if truthy a.search_string then
      idxFilter (fun cur => strHas cur (a.search_string.getD "")) lines
    else []
  let line_indices := idxFilter (fun cur => a.line = cur) lines
  let rel := match a.reIns with
    | some f => idxFilter f lines
    | none => []
  let decision : Except String (Option Nat × Option Nat × Option Nat) :=
    if line_indices = [] then
      if match_indices = [] then
        if rel = [] then
          if a.insertbefore = some "BOF" then .ok (some 0, none, none)
          else .ok (some lines.length, none, none)
        else
          if truthy a.insertafter then .ok (some (mc rel + 1), none, none)
          else if truthy a.insertbefore then .ok (some (mc rel), none, none)
          else .error ("'relative_insert_indices' should never be " ++
            "populated if insertafter and insertbefore are None")
      else .ok (none, some (mc match_indices), none)
    else
      if rel ≠ [] then
        let st : Option Nat × Option Nat := (none, none)
        let st := if truthy a.insertbefore then
            (let ib := line_indices.filter (fun i => i < mc rel)
             if ib ≠ [] then ((none : Option Nat), some (ib.getLastD 0))
             else (some (mc rel), (none : Option Nat)))
          else st
        let st := if truthy a.insertafter then
            (let ia := line_indices.filter (fun i => i > mc rel)
             if ia ≠ [] then (st.1, some (ia.headD 0))
             else (some (mc rel + 1), st.2))
          else st
        .ok (st.1, none, st.2)
      else .ok (none, none, some (mc line_indices))
  match decision with
  | .error e => .error e
  | .ok (insert_index, replace_index, keep_index0) =>
    let step : Except String (List String × Option Nat × String) :=
      match insert_index with
      | some ii => .ok (pyInsert lines ii a.line, some ii, "line added")
      | none =>
        match replace_index with
        | some ri =>
          let match_line := lines.getD ri ""
          let expanded := if a.backrefs ∧ truthy a.regexp then
              (if a.reM match_line then a.expand match_line else a.line)
            else a.line
          .ok (pySet lines ri expanded, some ri, "line replaced")
        | none =>
          if natTruthy keep_index0 then .ok (lines, keep_index0, "")
          else if match_indices = [] then
            .error "No lines found, added or replaced"
          else .ok (lines, keep_index0, "")
    match step with
    | .error e => .error e
    | .ok (new_lines, keep_index, msg) =>
      if a.dedupe then
        match keep_index with
        | none => .error "TypeError: '>' not supported with NoneType"
        | some k =>
          let dedupe_indices := (match_indices ++ line_indices).foldl
            (fun acc i =>
              if i > k ∧ natTruthy insert_index then acc ++ [i + 1]
              else if i ≠ k then acc ++ [i]
              else acc) []
          let dedupe_count := dedupe_indices.length
          match (sortDesc dedupe_indices).foldlM pyDelAt new_lines with
          | .error e => .error e
          | .ok nl2 =>
            .ok (nl2, msg ++ " " ++ toString dedupe_count ++ " lines deduped")
      else .ok (new_lines, msg)

/-- Failing input of C2: line "x" with insertbefore pattern "anchor"
over ["anchor", "x"], dedupe enabled.  The pattern "anchor" has no
regex metacharacters, so re.search is the substring test. -/
def c2ArgsBug : LineArgs :=
  { line := "x", regexp := none, reM := fun _ => false,
    search_string := none, insertafter := none,
    insertbefore := some "anchor",
    reIns := some (fun s => strHas s "anchor"),
    firstmatch := false, backrefs := false, expand := id, dedupe := true }

/-- C2 (code bug): with the insertion landing at index 0, the dedupe
pass does not apply the +1 adjustment (the adjustment is gated on the
truthiness of insert_index, and 0 is falsy), so it deletes the
unrelated "anchor" line at unadjusted index 1 and leaves the duplicate
"x": the result is ["x", "x"], not the ["x", "anchor"] the claimed
adjustment would produce. -/
theorem lineinfile_dedupe_insertion_at_zero_drops_anchor :
    ensureLinePresent c2ArgsBug ["anchor", "x"] =
      .ok (["x", "x"], "line added 1 lines deduped") ∧
    (["x", "x"] : List String) ≠ ["x", "anchor"] := by
  exact ⟨rfl, by decide⟩

/-! ## Mount classification (plugins/filter/mount.py _format_as_facts
and plugins/action/mounts.py) -/

/-- Dynamic value stored in a mount_info dict: a string, a bool, an
explicit None, the options sub-dict (value none models Python True for
a valueless option), or a df capacity record. -/
inductive MVal where
  | vStr (s : String)
  | vBool (b : Bool)
  | vNone
  | vOpts (o : List (String × Option String))
  | vCap (totalBytes usedBytes : Nat) (totalPretty usedPretty : String)
deriving DecidableEq

/-- One entry of the jc-parsed mount output: the relevant keys of the
dict handed to _format_as_facts.  typeField models the "type" key
(none = key absent); options models entry.get("options", []). -/
structure ParsedMountEntry where
  mount_point : Option String := none
  filesystem : Option String := none
  typeField : Option String := none
  options : List String := []
deriving DecidableEq

/-- DEVICE_FS_TYPES table. -/
def deviceFsTypes : List String :=
  ["ext2", "ext3", "ext4", "xfs", "btrfs", "zfs", "zfs_member", "apfs",
   "ufs", "ffs", "hfs", "hfsplus", "jfs", "reiserfs", "f2fs", "nilfs2",
   "ocfs2", "gfs2", "vfat", "msdos", "exfat", "ntfs", "ntfs3", "bcachefs"]

/-- PSEUDO_FS_TYPES table. -/
def pseudoFsTypes : List String :=
  ["proc", "procfs", "sysfs", "devfs", "devpts", "devtmpfs", "debugfs",
   "securityfs", "selinuxfs", "cgroup", "cgroup2", "pstore", "efivarfs",
   "configfs", "hugetlbfs", "mqueue", "bpf", "tracefs", "fusectl",
   "binfmt_misc", "rpc_pipefs"]

/-- VIRTUAL_FS_TYPES table. -/
def virtualFsTypes : List String :=
  ["tmpfs", "ramfs", "autofs", "nfsd", "fdescfs", "vboxsf", "vmhgfs"]

/-- OVERLAY_FS_TYPES table. -/
def overlayFsTypes : List String :=
  ["overlay", "overlayfs", "aufs", "unionfs", "unionfs-fuse",
   "fuse.unionfs", "mergerfs", "fuse.mergerfs", "mhddfs", "fuse.mhddfs",
   "bindfs", "fuse.bindfs", "nullfs", "encfs", "fuse.encfs", "gocryptfs",
   "fuse.gocryptfs", "cryfs", "fuse.cryfs", "ecryptfs", "fusecompress",
   "fuse.fusecompress", "compfused", "fuse.compfused", "lxcfs",
   "fuse.lxcfs", "shiftfs", "nsfs", "translucentfs", "fuse.translucentfs"]

/-- NETWORK_FS_TYPES table. -/
def networkFsTypes : List String :=
  ["nfs", "nfs4", "smbfs", "cifs", "afs", "coda", "ncpfs", "sshfs",
   "fuse.sshfs", "glusterfs", "ceph", "9p"]

/-- known_fuse_fs table (FUSE filesystems without a fuse prefix). -/
def knownFuseFs : List String :=
  ["bindfs", "encfs", "gocryptfs", "cryfs", "mergerfs", "lxcfs", "sshfs"]

/-- Python s.split("=", 1): key and optional value. -/
def splitFirstEqAux : List Char → List Char → String × Option String
  | [], acc => (String.mk acc.reverse, none)
  | '=' :: rest, acc => (String.mk acc.reverse, some (String.mk rest))
  | c :: rest, acc => splitFirstEqAux rest (c :: acc)

/-- Split an option token at the first '='. -/
def splitFirstEq (s : String) : String × Option String :=
  splitFirstEqAux s.data []

/-- Apply .lower() only when the value is truthy, as the source does
for both source and filesystem. -/
def lowerIfTruthy : Option String → Option String
  | some f => if f ≠ "" then some (pyLower f) else some f
  | none => none

/-- Raw filesystem value and remaining options: the explicit "type"
key wins, else the first option is popped as the type (macOS/BSD). -/
def entryFsOptsRaw (e : ParsedMountEntry) : Option String × List String :=
  match e.typeField with
  | some t => (some t, e.options)
  | none =>
    match e.options with
    | o :: rest => (some o, rest)
    | [] => (none, [])

/-- Filesystem value before the options loop (lowered when truthy). -/
def entryFilesystem1 (e : ParsedMountEntry) : Option String :=
  lowerIfTruthy (entryFsOptsRaw e).1

/-- Source value (entry["filesystem"], lowered when truthy). -/
def entrySource (e : ParsedMountEntry) : Option String :=
  lowerIfTruthy e.filesystem

/-- One step of the options loop: a subtype option of a generic
fuse/fuseblk filesystem replaces the filesystem (and marks fuse),
every other option lands in new_options. -/
def optsFoldStep (st : Option String × Bool × List (String × Option String))
    (opt : String) : Option String × Bool × List (String × Option String) :=
  let so := splitFirstEq opt
  if (st.1 = some "fuse" ∨ st.1 = some "fuseblk") ∧ so.1 = "subtype" then
    (so.2, true, st.2.2)
  else
    (st.1, st.2.1, setAssoc st.2.2 so.1 so.2)

/-- The options loop of _format_as_facts. -/
def entryOptsFold (e : ParsedMountEntry) :
    Option String × Bool × List (String × Option String) :=
  (entryFsOptsRaw e).2.foldl optsFoldStep (entryFilesystem1 e, false, [])

/-- Filesystem value after the options loop. -/
def entryFilesystem (e : ParsedMountEntry) : Option String :=
  (entryOptsFold e).1

/-- Whether the options loop extracted a FUSE subtype. -/
def entryFuseFromSubtype (e : ParsedMountEntry) : Bool :=
  (entryOptsFold e).2.1

/-- The new_options dict built by the options loop. -/
def entryNewOptions (e : ParsedMountEntry) : List (String × Option String) :=
  (entryOptsFold e).2.2

/-- Membership of an optional filesystem in a type table (None is in
no table, as in Python). -/
def fsInTable (f : Option String) (tbl : List String) : Bool :=
  match f with
  | some s => tbl.contains s
  | none => false

/-- Condition of the virtual branch: filesystem in VIRTUAL_FS_TYPES or
PSEUDO_FS_TYPES. -/
def entryIsVirtual (e : ParsedMountEntry) : Bool :=
  fsInTable (entryFilesystem e) virtualFsTypes ||
  fsInTable (entryFilesystem e) pseudoFsTypes

/-- Stage 1 of the mount_info dict: the initial {"fuse": False} plus
the early fuseblk device-type assignment. -/
def miStage1 (e : ParsedMountEntry) : List (String × MVal) :=
  if entryFilesystem1 e = some "fuseblk" then
    setAssoc [("fuse", MVal.vBool false)] "type" (MVal.vStr "device")
  else [("fuse", MVal.vBool false)]

/-- Stage 2: the fuse flag set inside the options loop when a subtype
was extracted. -/
def miStage2 (e : ParsedMountEntry) : List (String × MVal) :=
  if entryFuseFromSubtype e then
    setAssoc (miStage1 e) "fuse" (MVal.vBool true)
  else miStage1 e

/-- Stage 3: the filesystem key, unless None/fuse/fuseblk. -/
def miStage3 (e : ParsedMountEntry) : List (String × MVal) :=
  match entryFilesystem e with
  | some fs =>
    if fs ≠ "fuse" ∧ fs ≠ "fuseblk" then
      setAssoc (miStage2 e) "filesystem" (MVal.vStr fs)
    else miStage2 e
  | none => miStage2 e

/-- Stage 4: the source key when truthy and different from the
filesystem. -/
def miStage4 (e : ParsedMountEntry) : List (String × MVal) :=
  match entrySource e with
  | some s =>
    if s ≠ "" ∧ some s ≠ entryFilesystem e then
      setAssoc (miStage3 e) "source" (MVal.vStr s)
    else miStage3 e
  | none => miStage3 e

/-- Stage 5: the options key when new_options is nonempty. -/
def miStage5 (e : ParsedMountEntry) : List (String × MVal) :=
  if entryNewOptions e ≠ [] then
    setAssoc (miStage4 e) "options" (MVal.vOpts (entryNewOptions e))
  else miStage4 e

/-- Stage 6: the type classification chain (virtual overwrites source
with an explicit None and adds pseudo; the source-based fallback
classifies device-like and network-like sources). -/
def miStage6 (e : ParsedMountEntry) : List (String × MVal) :=
  if entryIsVirtual e then
    setAssoc (setAssoc (setAssoc (miStage5 e) "type" (MVal.vStr "virtual"))
      "source" MVal.vNone) "pseudo"
      (MVal.vBool (fsInTable (entryFilesystem e) pseudoFsTypes))
  else if fsInTable (entryFilesystem e) overlayFsTypes then
    setAssoc (miStage5 e) "type" (MVal.vStr "overlay")
  else if fsInTable (entryFilesystem e) networkFsTypes then
    setAssoc (miStage5 e) "type" (MVal.vStr "network")
  else if fsInTable (entryFilesystem e) deviceFsTypes then
    setAssoc (miStage5 e) "type" (MVal.vStr "device")
  else match entrySource e with
    | some s =>
      if s ≠ "" then
        if (strStarts s "/dev/" ∨ strStarts s "uuid=" ∨
            strStarts s "label=" ∨ strStarts s "partuuid=" ∨
            strStarts s "partlabel=") ∧ s ≠ "/dev/fuse" then
          setAssoc (miStage5 e) "type" (MVal.vStr "device")
        else if strHas s ":" ∨ strStarts s "//" then
          setAssoc (miStage5 e) "type" (MVal.vStr "network")
        else miStage5 e
      else miStage5 e
    | none => miStage5 e

/-- The mount_info dict _format_as_facts builds for one entry (for a
truthy mount point): stage 6 plus the final FUSE detection. -/
def buildMountInfo (e : ParsedMountEntry) : List (String × MVal) :=
  match entryFilesystem e with
  | some fs =>
    if fs ≠ "" ∧ ((strStarts fs "fuse" ∧ fs ≠ "fusectl") ∨
        strEnds fs "-fuse" ∨ knownFuseFs.contains (pyLower fs)) then
      setAssoc (miStage6 e) "fuse" (MVal.vBool true)
    else miStage6 e
  | none => miStage6 e

/-- Truthy mount point of an entry, if any (`if not mount_point:
continue`). -/
def entryKey (e : ParsedMountEntry) : Option String :=
  match e.mount_point with
  | some mp => if mp ≠ "" then some mp else none
  | none => none

/-- Embedding of _format_as_facts: the mounts dict, entries processed
in input order. -/
def formatAsFacts (parsed : List ParsedMountEntry) :
    List (String × List (String × MVal)) :=
  parsed.foldl (fun mounts e =>
    match entryKey e with
    | some mp => setAssoc mounts mp (buildMountInfo e)
    | none => mounts) []

/-- Module arguments of the mounts action, with the documented
defaults; pseudo defaults to the virtual setting when unset. -/
structure MountsArgs where
  device : Bool := true
  virtual : Bool := false
  network : Bool := true
  pseudo : Option Bool := none
  overlay : Bool := true
  fuse : Bool := true
deriving DecidableEq

/-- Default mounts action arguments. -/
def defaultMountsArgs : MountsArgs := {}

/-- Python truthiness of an optional mount_info value (used for
mount_info.get("fuse", False) and .get("pseudo", False)). -/
def mvalTruthy : Option MVal → Bool
  | some (.vStr s) => s ≠ ""
  | some (.vBool b) => b
  | some .vNone => false
  | some (.vOpts o) => o ≠ []
  | some (.vCap _ _ _ _) => true
  | none => false

/-- Embedding of ActionModule._filter_mounts' per-entry predicate. -/
def keepMount (args : MountsArgs) (mi : List (String × MVal)) : Bool :=
  let includePseudo := args.pseudo.getD args.virtual
  let mtype := lookupAssoc mi "type"
  let isFuse := mvalTruthy (lookupAssoc mi "fuse")
  let isPseudo := mvalTruthy (lookupAssoc mi "pseudo")
  if args.device = false ∧ mtype = some (MVal.vStr "device") then false
  else if args.virtual = false ∧ mtype = some (MVal.vStr "virtual") then
    false
  else if args.network = false ∧ mtype = some (MVal.vStr "network") then
    false
  else if args.overlay = false ∧ mtype = some (MVal.vStr "overlay") then
    false
  else if includePseudo = false ∧ mtype = some (MVal.vStr "virtual") ∧
      isPseudo then false
  else if args.fuse = false ∧ isFuse then false
  else true

/-- Embedding of ActionModule._enhance_with_df_data: copies the df
capacity value into each mount entry matched by mount point, in
place. -/
def enhanceWithDf
    (mounts dfMounts : List (String × List (String × MVal))) :
    List (String × List (String × MVal)) :=
  mounts.map (fun kv =>
    match lookupAssoc dfMounts kv.1 with
    | some dfi =>
      match lookupAssoc dfi "capacity" with
      | some cap => (kv.1, setAssoc kv.2 "capacity" cap)
      | none => kv
    | none => kv)

/-- Embedding of ActionModule._get_mounts downstream of the jc parse:
facts formatting, argument filtering, optional df capacity merge. -/
def getMounts (args : MountsArgs) (parsed : List ParsedMountEntry)
    (dfMounts : Option (List (String × List (String × MVal)))) :
    List (String × List (String × MVal)) :=
  let filtered := (formatAsFacts parsed).filter
    (fun kv => keepMount args kv.2)
  match dfMounts with
  | some dfm => enhanceWithDf filtered dfm
  | none => filtered

/-- Strict lexicographic order on character lists. -/
def charsLt : List Char → List Char → Bool
  | [], [] => false
  | [], _ :: _ => true
  | _ :: _, [] => false
  | a :: as, b :: bs =>
      if a < b then true else if b < a then false else charsLt as bs

/-- Lexical sortedness of a key list (the ordering C6 claims):
each adjacent pair satisfies a <= b, i.e. not (b < a). -/
def lexSorted : List String → Bool
  | [] => true
  | [_] => true
  | a :: b :: r => !(charsLt b.data a.data) && lexSorted (b :: r)

/-- Device-backed /b entry (appears first in the mount output). -/
def entSdb : ParsedMountEntry :=
  { mount_point := some "/b", filesystem := some "/dev/sdb1",
    typeField := some "ext4", options := ["rw"] }

/-- Device-backed /a entry (appears second in the mount output). -/
def entSda : ParsedMountEntry :=
  { mount_point := some "/a", filesystem := some "/dev/sda1",
    typeField := some "ext4", options := ["rw"] }

/-- Counterexample to C6 as stated: a mount table listing /b before
/a yields the keys in input order, which is not lexically sorted —
no sort is applied anywhere in _format_as_facts or _get_mounts. -/
theorem mounts_not_sorted_counterexample :
    assocKeys (getMounts defaultMountsArgs [entSdb, entSda] none) =
      ["/b", "/a"] ∧
    lexSorted (assocKeys
      (getMounts defaultMountsArgs [entSdb, entSda] none)) = false :=
  ⟨rfl, rfl⟩

/-- Mount points of the parsed input that survive the truthiness
check, in input order. -/
def truthyMountPoints (parsed : List ParsedMountEntry) : List String :=
  parsed.filterMap entryKey

/-- Keys resulting from dict insertions in order: a new key is
appended, an existing key keeps its position. -/
def keysAfterInserts (ks : List String) (new : List String) : List String :=
  new.foldl (fun acc k => if k ∈ acc then acc else acc ++ [k]) ks

/-- Helper: keys of the _format_as_facts fold from any accumulator. -/
theorem formatAsFacts_keys_aux (parsed : List ParsedMountEntry)
    (acc : List (String × List (String × MVal))) :
    assocKeys (parsed.foldl (fun mounts e =>
      match entryKey e with
      | some mp => setAssoc mounts mp (buildMountInfo e)
      | none => mounts) acc) =
    keysAfterInserts (assocKeys acc) (truthyMountPoints parsed) := by
  induction parsed generalizing acc with
  | nil => simp [truthyMountPoints, keysAfterInserts]
  | cons e rest ih =>
    cases hk : entryKey e with
    | none =>
      simp only [List.foldl_cons, hk]
      rw [ih]
      simp [truthyMountPoints, hk]
    | some mp =>
      simp only [List.foldl_cons, hk]
      rw [ih]
      simp [truthyMountPoints, keysAfterInserts, hk, assocKeys_setAssoc]

/-- C6 amended: the mount-point keys of the facts mapping appear in
input first-occurrence order (later duplicates update in place), and
the final filtered/enhanced result of the mounts action preserves that
order (its keys are a subsequence); no lexical sorting happens. -/
theorem mounts_keys_insertion_order (parsed : List ParsedMountEntry)
    (args : MountsArgs)
    (dfMounts : Option (List (String × List (String × MVal)))) :
    assocKeys (formatAsFacts parsed) =
      keysAfterInserts [] (truthyMountPoints parsed) ∧
    (assocKeys (getMounts args parsed dfMounts)).Sublist
      (assocKeys (formatAsFacts parsed)) := by
  constructor
  · exact formatAsFacts_keys_aux parsed []
  · have hfilter : (assocKeys ((formatAsFacts parsed).filter
        (fun kv => keepMount args kv.2))).Sublist
        (assocKeys (formatAsFacts parsed)) :=
      (List.filter_sublist _).map Prod.fst
    match dfMounts with
    | none => exact hfilter
    | some dfm =>
      have hkeys : assocKeys (enhanceWithDf ((formatAsFacts parsed).filter
          (fun kv => keepMount args kv.2)) dfm) =
          assocKeys ((formatAsFacts parsed).filter
            (fun kv => keepMount args kv.2)) := by
        generalize (formatAsFacts parsed).filter
          (fun kv => keepMount args kv.2) = m
        induction m with
        | nil => rfl
        | cons kv tl ihm =>
          obtain ⟨k, v⟩ := kv
          simp only [enhanceWithDf, List.map_cons, assocKeys] at ihm ⊢
          cases h1 : lookupAssoc dfm k with
          | none => simp [h1, ihm]
          | some dfi =>
            cases h2 : lookupAssoc dfi "capacity" with
            | none => simp [h1, h2, ihm]
            | some cap => simp [h1, h2, ihm]
      exact hkeys ▸ hfilter

theorem lkSrcFuse (m : List (String × MVal)) (v : MVal) :
    lookupAssoc (setAssoc m "fuse" v) "source" = lookupAssoc m "source" :=
  lookupAssoc_setAssoc_ne m "fuse" "source" v (by decide)

theorem lkSrcType (m : List (String × MVal)) (v : MVal) :
    lookupAssoc (setAssoc m "type" v) "source" = lookupAssoc m "source" :=
  lookupAssoc_setAssoc_ne m "type" "source" v (by decide)

theorem lkSrcPseudo (m : List (String × MVal)) (v : MVal) :
    lookupAssoc (setAssoc m "pseudo" v) "source" = lookupAssoc m "source" :=
  lookupAssoc_setAssoc_ne m "pseudo" "source" v (by decide)

theorem lkSrcFilesystem (m : List (String × MVal)) (v : MVal) :
    lookupAssoc (setAssoc m "filesystem" v) "source" =
      lookupAssoc m "source" :=
  lookupAssoc_setAssoc_ne m "filesystem" "source" v (by decide)

theorem lkSrcOptions (m : List (String × MVal)) (v : MVal) :
    lookupAssoc (setAssoc m "options" v) "source" = lookupAssoc m "source" :=
  lookupAssoc_setAssoc_ne m "options" "source" v (by decide)

theorem lkSrcSelf (m : List (String × MVal)) (v : MVal) :
    lookupAssoc (setAssoc m "source" v) "source" = some v :=
  lookupAssoc_setAssoc_self m "source" v

/-- The /proc entry as jc parses it. -/
def entProc : ParsedMountEntry :=
  { mount_point := some "/proc", filesystem := some "proc",
    typeField := some "proc", options := [] }

/-- Counterexample to C7 as stated: for the virtual filesystem /proc
the source value ("proc") duplicates the filesystem value, yet the
produced entry still carries a source key — set explicitly to None by
the virtual branch — rather than omitting it. -/
theorem mount_virtual_source_key_present :
    lookupAssoc (buildMountInfo entProc) "source" = some MVal.vNone ∧
    lookupAssoc (buildMountInfo entProc) "filesystem" =
      some (MVal.vStr "proc") ∧
    entrySource entProc = entryFilesystem entProc ∧
    lookupAssoc (buildMountInfo entProc) "source" ≠ none :=
  ⟨rfl, rfl, rfl, by decide⟩

theorem lookup_source_miStage3 (e : ParsedMountEntry) :
    lookupAssoc (miStage3 e) "source" = none := by
  have h1 : lookupAssoc (miStage1 e) "source" = none := by
    unfold miStage1
    split
    · rw [lkSrcType]
      rfl
    · rfl
  have h2 : lookupAssoc (miStage2 e) "source" = none := by
    unfold miStage2
    split
    · rw [lkSrcFuse, h1]
    · exact h1
  unfold miStage3
  split
  · split
    · rw [lkSrcFilesystem, h2]
    · exact h2
  · exact h2

theorem lookup_source_miStage5 (e : ParsedMountEntry) :
    lookupAssoc (miStage5 e) "source" =
      (match entrySource e with
       | some s => if s ≠ "" ∧ some s ≠ entryFilesystem e then
           some (MVal.vStr s) else none
       | none => none) := by
  have h4 : lookupAssoc (miStage4 e) "source" =
      (match entrySource e with
       | some s => if s ≠ "" ∧ some s ≠ entryFilesystem e then
           some (MVal.vStr s) else none
       | none => none) := by
    unfold miStage4
    split
    · split
      · rw [lkSrcSelf]
      · rw [lookup_source_miStage3]
    · rw [lookup_source_miStage3]
  unfold miStage5
  split
  · rw [lkSrcOptions, h4]
  · exact h4

/-- C7 amended: the source key of a produced entry is fully
characterised as follows — for virtual filesystems the key is present
and explicitly None; otherwise it is present (with the lowered source
string) exactly when the source is truthy and differs from the
filesystem, and absent whenever the source is falsy or would duplicate
the filesystem. -/
theorem mount_source_field_characterization (e : ParsedMountEntry) :
    lookupAssoc (buildMountInfo e) "source" =
      (if entryIsVirtual e then some MVal.vNone
       else match entrySource e with
         | some s => if s ≠ "" ∧ some s ≠ entryFilesystem e then
             some (MVal.vStr s) else none
         | none => none) := by
  have h6 : lookupAssoc (miStage6 e) "source" =
      (if entryIsVirtual e then some MVal.vNone
       else match entrySource e with
         | some s => if s ≠ "" ∧ some s ≠ entryFilesystem e then
             some (MVal.vStr s) else none
         | none => none) := by
    unfold miStage6
    by_cases hv : entryIsVirtual e = true
    · rw [if_pos hv, if_pos hv, lkSrcPseudo, lkSrcSelf]
    · rw [if_neg hv, if_neg hv]
      repeat' split
      all_goals simp_all [lookup_source_miStage5, lkSrcType]
      all_goals rename_i hsf
      all_goals rw [← hsf]
      all_goals simp
  unfold buildMountInfo
  split
  · split
    · rw [lkSrcFuse, h6]
    · exact h6
  · exact h6

/-! ## Atomic file writer (posix_base._write_file and its helpers)

The remote filesystem is a path-keyed association list of nodes; the
remote host environment (tool availability, the SELinux policy applied
by restorecon, the validation command's verdict, chown/chgrp
permission checks, the perms of freshly created files, and the
md5+timestamp suffix of _generate_ansible_backup_path) is a record of
oracles.  shell.tmpdir is modelled as already set (the
_make_raw_tmp_path cache after its first call); the slurp used by the
comparison is the native path (exact bytes).  The unified-diff
computation of _write_file is omitted: it neither mutates state nor
affects the changed flag or the returned keys modelled here. -/

/-- SELinux context of a file (user:role:type:level). -/
structure SECtx where
  seuser : String
  serole : String
  setype : String
  selevel : String
deriving DecidableEq

/-- Permission state of a file: symbolic mode (the nine rwx characters
as ls prints them), owner, group, SELinux context. -/
structure FilePerms where
  mode : String
  owner : String
  group : String
  ctx : SECtx
deriving DecidableEq

/-- A filesystem node: regular file, directory, or another POSIX type
("block", "char", "pipe", "socket"). -/
inductive FsNode where
  | file (content : String) (perms : FilePerms)
  | dir
  | other (t : String)
deriving DecidableEq

/-- Remote filesystem model. -/
abbrev Fs := List (String × FsNode)

/-- Remote-host environment of one writer operation. -/
structure WEnv where
  tmpdir : String
  hasChcon : Bool
  hasSemanage : Bool
  hasRestorecon : Bool
  policyCtx : String → SECtx
  validateOk : String → Bool
  chownOk : String → Bool
  chgrpOk : String → Bool
  defaultPerms : FilePerms
  backupSuffix : String

/-- test(1) oracle of a node: which test flags return rc 0 (the model
contains no symlinks, so -L always fails). -/
def nodeTest (n : Option FsNode) (fl : TestFlag) : Bool :=
  match n, fl with
  | none, _ => false
  | some _, .e => true
  | some _, .L => false
  | some .dir, .d => true
  | some (.file _ _), .f => true
  | some (.other t), .b => t = "block"
  | some (.other t), .c => t = "char"
  | some (.other t), .p => t = "pipe"
  | some (.other t), .S => t = "socket"
  | some _, _ => false

/-- _pseudo_stat against the model filesystem. -/
def pseudoStatFs (fs : Fs) (p : String) : Except String PseudoStat :=
  pseudoStat false (nodeTest (lookupAssoc fs p))

/-- Observed PermissionSet as _get_perms returns it (SELinux keys only
when requested). -/
structure ObsPerms where
  mode : String
  owner : String
  group : String
  se : Option SECtx
deriving DecidableEq

/-- The observed perms of a file node. -/
def mkObs (perms : FilePerms) (selinux : Bool) : ObsPerms :=
  { mode := perms.mode, owner := perms.owner, group := perms.group,
    se := if selinux then some perms.ctx else none }

/-- Embedding of _get_perms: parses the ls -ld (or -Zd) line of the target.
Inside _write_file it is only ever reached on regular files; a failing
ls (no such path) is the fatal error branch. -/
def getPerms (fs : Fs) (p : String) (selinux : Bool) :
    Except String ObsPerms :=
  match lookupAssoc fs p with
  | some (.file _ perms) => .ok (mkObs perms selinux)
  | _ => .error ("Could not stat " ++ p)

/-- perms.get(key) of a desired PermissionSet. -/
def desiredField (ps : DesiredPerms) (k : String) : Option String :=
  if k = "owner" then ps.owner
  else if k = "group" then ps.group
  else if k = "selevel" then ps.selevel
  else if k = "serole" then ps.serole
  else if k = "setype" then ps.setype
  else if k = "seuser" then ps.seuser
  else none

/-- old_perms.get(key) of an observed PermissionSet. -/
def obsField (o : ObsPerms) (k : String) : Option String :=
  if k = "owner" then some o.owner
  else if k = "group" then some o.group
  else match o.se with
    | some c =>
      if k = "selevel" then some c.selevel
      else if k = "serole" then some c.serole
      else if k = "setype" then some c.setype
      else if k = "seuser" then some c.seuser
      else none
    | none => none

/-- Keys of the non-mode comparison/verification loops, in source
order. -/
def permKeys : List String :=
  ["owner", "group", "selevel", "serole", "setype", "seuser"]

/-- The shared loop of _compare_content_and_perms and the post-apply
verification of _apply_perms_and_selinux: some requested non-mode
field differs from the observed one. -/
def permFieldDiff (ps : DesiredPerms) (o : ObsPerms) : Bool :=
  permKeys.any (fun k => truthy (desiredField ps k) &&
    decide (desiredField ps k ≠ obsField o k))

/-- Octal digit test. -/
def isOctDigit (c : Char) : Bool := '0' ≤ c && c ≤ '7'

/-- Model of int(str(octal_mode), 8) for the digit strings the writer
handles (int() also tolerates whitespace, a sign and an 0o prefix;
mode strings never carry those). -/
def parseOctal? (s : String) : Option Nat :=
  if s.data = [] then none
  else if s.data.all isOctDigit then
    some (s.data.foldl (fun a c => a * 8 + (c.toNat - '0'.toNat)) 0)
  else none

/-- Model of stat.filemode(m)[1:10]: the nine permission characters
including setuid/setgid/sticky letters. -/
def symbolicOfMode (m : Nat) : String :=
  let bit := fun (i : Nat) => Nat.testBit m i
  (if bit 8 then "r" else "-") ++ (if bit 7 then "w" else "-") ++
  (if bit 11 then (if bit 6 then "s" else "S")
   else (if bit 6 then "x" else "-")) ++
  (if bit 5 then "r" else "-") ++ (if bit 4 then "w" else "-") ++
  (if bit 10 then (if bit 3 then "s" else "S")
   else (if bit 3 then "x" else "-")) ++
  (if bit 2 then "r" else "-") ++ (if bit 1 then "w" else "-") ++
  (if bit 9 then (if bit 0 then "t" else "T")
   else (if bit 0 then "x" else "-"))

/-- Embedding of _convert_octal_mode_to_symbolic. -/
def convertOctalModeToSymbolic (s : String) : Except String String :=
  match parseOctal? s with
  | some n => .ok (symbolicOfMode n)
  | none => .error ("invalid octal mode: " ++ s)

example : convertOctalModeToSymbolic "0644" = .ok "rw-r--r--" := rfl
example : convertOctalModeToSymbolic "0700" = .ok "rwx------" := rfl
example : convertOctalModeToSymbolic "4755" = .ok "rwsr-xr-x" := rfl

/-- Embedding of _mkdir as _write_file uses it (parents=true, mode
0700): no-op on an existing directory, error when the path exists as
something else, creation otherwise. -/
def mkdirP (fs : Fs) (p : String) : Except String Fs :=
  match pseudoStatFs fs p with
  | .error e => .error e
  | .ok st =>
    if st.type_ = some "directory" then .ok fs
    else if st.exists_ then
      .error ("Path '" ++ p ++ "' exists but is not a directory")
    else .ok (setAssoc fs p FsNode.dir)

/-- Bytes the temp file holds after tee: "\n".join(lines) fed through
stdin with the command plugin's stdin_add_newline (a trailing newline
is appended to nonempty stdin not already ending in one). -/
def teeContent (lines : List String) : String :=
  let s := joinNL lines
  if s = "" then s else if strEnds s "\n" then s else s ++ "\n"

/-- Embedding of _write_temp_file: tee the content (truncating an
existing regular file, else creating one with the host's default
perms), then chmod 0600. -/
def writeTempFile (env : WEnv) (fs : Fs) (lines : List String)
    (tmpfile : String) : Except String Fs :=
  match lookupAssoc fs tmpfile with
  | some (.file _ perms) =>
      .ok (setAssoc fs tmpfile (.file (teeContent lines)
        { perms with mode := "rw-------" }))
  | some _ => .error ("Failed to write temp file " ++ tmpfile)
  | none =>
      .ok (setAssoc fs tmpfile (.file (teeContent lines)
        { env.defaultPerms with mode := "rw-------" }))

/-- Content argument of _write_file (strings or lists of
string-coerced elements; other element types raise before reaching
any of the behaviour modelled here). -/
inductive ContentArg where
  | str (s : String)
  | list (l : List String)

/-- Embedding of _normalize_content: (lines, newline-terminated
string). -/
def normalizeContent : ContentArg → List String × String
  | .str s => (pySplitLines s, if strEnds s "\n" then s else s ++ "\n")
  | .list l => (l, joinNL l ++ "\n")

/-- Embedding of _create_backup: cp --preserve=all of an existing
destination to the generated <dest>.<md5>.<timestamp> path. -/
def createBackup (env : WEnv) (fs : Fs) (dest : String) :
    Option String × Fs :=
  match lookupAssoc fs dest with
  | some node =>
      (some (dest ++ "." ++ env.backupSuffix),
       setAssoc fs (dest ++ "." ++ env.backupSuffix) node)
  | none => (none, fs)

/-- Native slurp of an existing file: exact content plus
content.splitlines(). -/
def slurpFile (fs : Fs) (p : String) :
    Except String (String × List String) :=
  match lookupAssoc fs p with
  | some (.file c _) => .ok (c, pySplitLines c)
  | _ => .error ("Could not read contents of file " ++ p)

/-- Embedding of _compare_content_and_perms: (changed, old_content,
old_lines). -/
def compareContentAndPerms (fs : Fs) (dest : String) (lines : List String)
    (perms : Option DesiredPerms) (selinux : Bool) :
    Except String (Bool × Option String × List String) :=
  match pseudoStatFs fs dest with
  | .error e => .error e
  | .ok old_stat =>
    if old_stat.exists_ = false then .ok (true, none, [])
    else
      match slurpFile fs dest with
      | .error e => .error e
      | .ok (old_content, old_lines) =>
        let changed0 := decide (lines ≠ old_lines)
        match getPerms fs dest selinux with
        | .error e => .error e
        | .ok old_perms =>
          match perms with
          | none => .ok (changed0, some old_content, old_lines)
          | some ps =>
            let changed1 := changed0 || permFieldDiff ps old_perms
            if truthy ps.mode then
              match convertOctalModeToSymbolic (ps.mode.getD "") with
              | .ok symbolPerms =>
                  .ok (changed1 || decide (symbolPerms ≠ old_perms.mode),
                    some old_content, old_lines)
              | .error e => .error ("Invalid mode: " ++ e)
            else .ok (changed1, some old_content, old_lines)

/-- chown DEST (the oracle decides whether the remote host permits the
ownership change). -/
def chownFile (env : WEnv) (fs : Fs) (p own : String) :
    Except String Fs :=
  if env.chownOk own then
    match lookupAssoc fs p with
    | some (.file c perms) =>
        .ok (setAssoc fs p (.file c { perms with owner := own }))
    | _ => .error ("Failed to chown " ++ p)
  else .error ("Failed to chown " ++ p)

/-- chgrp DEST. -/
def chgrpFile (env : WEnv) (fs : Fs) (p grp : String) :
    Except String Fs :=
  if env.chgrpOk grp then
    match lookupAssoc fs p with
    | some (.file c perms) =>
        .ok (setAssoc fs p (.file c { perms with group := grp }))
    | _ => .error ("Failed to chgrp " ++ p)
  else .error ("Failed to chgrp " ++ p)

/-- chmod MODE DEST for an octal mode string (the writer's contract
only passes octal modes; for anything else the post-apply mode
verification fails regardless, so the model rejects it at the chmod
step). -/
def chmodFile (fs : Fs) (p mode : String) : Except String Fs :=
  match parseOctal? mode with
  | some n =>
      match lookupAssoc fs p with
      | some (.file c perms) =>
          .ok (setAssoc fs p (.file c
            { perms with mode := symbolicOfMode n }))
      | _ => .error ("Failed to chmod " ++ p)
  | none => .error ("Failed to chmod " ++ p)

/-- The chcon field updates: each truthy requested field overrides the
corresponding context component. -/
def applyCtxFields (ps : DesiredPerms) (ctx : SECtx) : SECtx :=
  let c1 := match ps.seuser with
    | some u => if u ≠ "" then { ctx with seuser := u } else ctx
    | none => ctx
  let c2 := match ps.serole with
    | some r => if r ≠ "" then { c1 with serole := r } else c1
    | none => c1
  let c3 := match ps.setype with
    | some t => if t ≠ "" then { c2 with setype := t } else c2
    | none => c2
  match ps.selevel with
  | some l => if l ≠ "" then { c3 with selevel := l } else c3
  | none => c3

/-- Embedding of _handle_selinux_context: semanage+restorecon (policy
context) when both resolve and setype is requested, else chcon with
the requested fields (chcon missing means the command fails). -/
def handleSelinuxContext (env : WEnv) (fs : Fs) (dest : String)
    (perms : Option DesiredPerms) : Except String Fs :=
  match perms with
  | none => .ok fs
  | some ps =>
    if selinuxRequested (some ps) = false then .ok fs
    else if env.hasSemanage && env.hasRestorecon && truthy ps.setype then
      match lookupAssoc fs dest with
      | some (.file c perms') =>
          .ok (setAssoc fs dest (.file c
            { perms' with ctx := env.policyCtx dest }))
      | _ => .error "Failed to apply SELinux context with restorecon"
    else
      if env.hasChcon = false then
        .error "Failed to set SELinux context with chcon"
      else match lookupAssoc fs dest with
        | some (.file c perms') =>
            .ok (setAssoc fs dest (.file c
              { perms' with ctx := applyCtxFields ps perms'.ctx }))
        | _ => .error "Failed to set SELinux context with chcon"

/-- The chown/chgrp/chmod block of _apply_perms_and_selinux. -/
def applyOwnership (env : WEnv) (fs : Fs) (dest : String)
    (perms : Option DesiredPerms) : Except String Fs :=
  match perms with
  | none => .ok fs
  | some ps =>
    match (if truthy ps.owner then chownFile env fs dest (ps.owner.getD "")
      else .ok fs) with
    | .error e => .error e
    | .ok fs1 =>
      match (if truthy ps.group then
          chgrpFile env fs1 dest (ps.group.getD "") else .ok fs1) with
      | .error e => .error e
      | .ok fs2 =>
        if truthy ps.mode then chmodFile fs2 dest (ps.mode.getD "")
        else .ok fs2

/-- The post-apply verification block of _apply_perms_and_selinux. -/
def verifyPerms (fs : Fs) (dest : String) (perms : Option DesiredPerms)
    (selinux : Bool) : Except String Unit :=
  match perms with
  | none => .ok ()
  | some ps =>
    match getPerms fs dest selinux with
    | .error e => .error e
    | .ok final_perms =>
      if permFieldDiff ps final_perms then
        .error "Post-apply verification failed"
      else if truthy ps.mode then
        match convertOctalModeToSymbolic (ps.mode.getD "") with
        | .ok expected_mode =>
            if final_perms.mode ≠ expected_mode then
              .error "Post-apply verification failed: mode"
            else .ok ()
        | .error e => .error ("Invalid mode format: " ++ e)
      else .ok ()

/-- Embedding of _apply_perms_and_selinux. -/
def applyPermsAndSelinux (env : WEnv) (fs : Fs) (dest : String)
    (perms : Option DesiredPerms) (selinux : Bool) : Except String Fs :=
  match applyOwnership env fs dest perms with
  | .error e => .error e
  | .ok fs1 =>
    match (if selinux then handleSelinuxContext env fs1 dest perms
      else .ok fs1) with
    | .error e => .error e
    | .ok fs2 =>
      match verifyPerms fs2 dest perms selinux with
      | .error e => .error e
      | .ok _ => .ok fs2

/-- Embedding of _validate_file as _write_file invokes it. -/
def validateStep (env : WEnv) (validateCmd : Option String)
    (content : String) : Except String Unit :=
  if truthy validateCmd then
    (if env.validateOk content then .ok ()
     else .error "Validation failed")
  else .ok ()

/-- Result keys of _write_file relevant here. -/
structure WriteResult where
  changed : Bool
  msg : String
  rc : Nat
  backup_file : Option String
deriving DecidableEq

/-- Embedding of _write_file (check_mode already folded to a Bool). -/
def writeFile (env : WEnv) (fs : Fs) (content : ContentArg) (dest : String)
    (perms : Option DesiredPerms) (backup : Bool)
    (validateCmd : Option String) (check_mode : Bool) :
    Except String (WriteResult × Fs) :=
  let tmpfile := env.tmpdir ++ "/ansible_tmpfile"
  match pseudoStatFs fs dest with
  | .error e => .error e
  | .ok old_stat =>
    if old_stat.exists_ ∧ old_stat.type_ ≠ some "file" then
      .error "Cannot write over a non-regular file"
    else
      let lines := (normalizeContent content).1
      match checkSelinuxTools perms env.hasChcon env.hasSemanage with
      | .error e => .error e
      | .ok selinuxRes =>
        match mkdirP fs env.tmpdir with
        | .error e => .error e
        | .ok fsA =>
          match writeTempFile env fsA lines tmpfile with
          | .error e => .error e
          | .ok fsB =>
            match validateStep env validateCmd (teeContent lines) with
            | .error e => .error e
            | .ok _ =>
              let bk := if backup then createBackup env fsB dest
                else (none, fsB)
              match compareContentAndPerms bk.2 dest lines perms
                  selinuxRes.1 with
              | .error e => .error e
              | .ok (changed, _old_content, _old_lines) =>
                if check_mode then
                  .ok ({ changed := changed,
                         msg := if changed then
                             "Check mode: changes would have been made."
                           else "Check mode: no changes needed.",
                         rc := 0, backup_file := bk.1 }, bk.2)
                else if changed then
                  match lookupAssoc bk.2 tmpfile with
                  | some node =>
                    match applyPermsAndSelinux env
                        (setAssoc (removeAssoc bk.2 tmpfile) dest node)
                        dest perms selinuxRes.1 with
                    | .error e => .error e
                    | .ok fsF =>
                        .ok ({ changed := true,
                               msg := "File written successfully",
                               rc := 0, backup_file := bk.1 }, fsF)
                  | none => .error "Failed to move temp file into place"
                else
                  .ok ({ changed := false, msg := "File not changed",
                         rc := 0, backup_file := bk.1 }, bk.2)

/-- A concrete SELinux context for the demo host. -/
def defaultCtx : SECtx :=
  { seuser := "unconfined_u", serole := "object_r",
    setype := "user_tmp_t", selevel := "s0" }

/-- Default perms of files the demo host creates. -/
def demoFilePerms : FilePerms :=
  { mode := "rw-r--r--", owner := "root", group := "root",
    ctx := defaultCtx }

/-- A demo remote host: no SELinux tooling, permissive chown/chgrp,
always-passing validation. -/
def envDemo : WEnv :=
  { tmpdir := "/tmp/ansible.abc123", hasChcon := false,
    hasSemanage := false, hasRestorecon := false,
    policyCtx := fun _ => defaultCtx,
    validateOk := fun _ => true, chownOk := fun _ => true,
    chgrpOk := fun _ => true,
    defaultPerms := demoFilePerms,
    backupSuffix := "8f1bd0.20250101000000" }

/-- Counterexample to C1 as stated: writing the content "\n" (one
empty line) to a fresh destination reports changed=true on the first
call AND changed=true on the second call, because the empty line is
written as empty bytes and reads back as zero lines, so the content
comparison never stabilises.  (The same happens for any normalized
line list ending in an empty line, e.g. the string "a\n\n".) -/
theorem write_file_not_idempotent_counterexample :
    ∃ r1 fs1 r2 fs2,
      writeFile envDemo [] (.str "\n") "/etc/motd" none false none false =
        .ok (r1, fs1) ∧
      writeFile envDemo fs1 (.str "\n") "/etc/motd" none false none false =
        .ok (r2, fs2) ∧
      r1.changed = true ∧ r2.changed = true := by
  refine ⟨_, _, _, _, rfl, rfl, rfl, rfl⟩

theorem str_append_ne (d s : String) (hs : s.data ≠ []) : d ++ s ≠ d := by
  intro he
  have h2 : d.data ++ s.data = d.data := congrArg String.data he
  have hl := congrArg List.length h2
  simp [List.length_append] at hl
  exact hs (List.length_eq_zero.mp hl)

theorem backup_path_ne (d s : String) : d ++ "." ++ s ≠ d := by
  intro he
  have h2 : (d.data ++ ['.']) ++ s.data = d.data := congrArg String.data he
  have hl := congrArg List.length h2
  simp [List.length_append] at hl

theorem setAssoc_eq_append {α : Type} (m : List (String × α)) (k : String)
    (v : α) (h : lookupAssoc m k = none) : setAssoc m k v = m ++ [(k, v)] := by
  induction m with
  | nil => simp [setAssoc]
  | cons hd tl ih =>
    obtain ⟨k', w⟩ := hd
    by_cases h2 : k' = k
    · subst h2
      simp [lookupAssoc] at h
    · simp only [lookupAssoc, if_neg h2] at h
      simp [setAssoc, h2, ih h]

theorem removeAssoc_append_self {α : Type} (m : List (String × α))
    (k : String) (v : α) (h : lookupAssoc m k = none) :
    removeAssoc (m ++ [(k, v)]) k = m := by
  induction m with
  | nil => simp [removeAssoc]
  | cons hd tl ih =>
    obtain ⟨k', w⟩ := hd
    by_cases h2 : k' = k
    · subst h2
      simp [lookupAssoc] at h
    · simp only [lookupAssoc, if_neg h2] at h
      simp [removeAssoc, h2, ih h]

/-- Record _pseudo_stat builds for an existing directory. -/
def statDir : PseudoStat :=
  { raw := false, exists_ := true, type_ := some "directory",
    is_symlink := some false }

theorem pseudoStatFs_none (fs : Fs) (p : String)
    (h : lookupAssoc fs p = none) : pseudoStatFs fs p = .ok statNoent := by
  show pseudoStat false (nodeTest (lookupAssoc fs p)) = .ok statNoent
  rw [h]
  rfl

theorem pseudoStatFs_file (fs : Fs) (p c : String) (perms : FilePerms)
    (h : lookupAssoc fs p = some (.file c perms)) :
    pseudoStatFs fs p = .ok statPlainFile := by
  show pseudoStat false (nodeTest (lookupAssoc fs p)) = .ok statPlainFile
  rw [h]
  rfl

theorem pseudoStatFs_dir (fs : Fs) (p : String)
    (h : lookupAssoc fs p = some .dir) : pseudoStatFs fs p = .ok statDir := by
  show pseudoStat false (nodeTest (lookupAssoc fs p)) = .ok statDir
  rw [h]
  rfl

theorem mkdirP_none (fs : Fs) (p : String) (h : lookupAssoc fs p = none) :
    mkdirP fs p = .ok (setAssoc fs p FsNode.dir) := by
  simp [mkdirP, pseudoStatFs_none fs p h, statNoent]

theorem mkdirP_dir (fs : Fs) (p : String)
    (h : lookupAssoc fs p = some .dir) : mkdirP fs p = .ok fs := by
  simp [mkdirP, pseudoStatFs_dir fs p h, statDir]

theorem mkdirP_ok (fs : Fs) (p : String) (fs' : Fs)
    (h : mkdirP fs p = .ok fs') :
    lookupAssoc fs' p = some FsNode.dir ∧
    ∀ q, q ≠ p → lookupAssoc fs' q = lookupAssoc fs q := by
  cases hn : lookupAssoc fs p with
  | none =>
    rw [mkdirP_none fs p hn] at h
    injection h with h
    subst h
    exact ⟨lookupAssoc_setAssoc_self fs p _,
      fun q hq => lookupAssoc_setAssoc_ne fs p q _ (Ne.symm hq)⟩
  | some node =>
    cases node with
    | dir =>
      rw [mkdirP_dir fs p hn] at h
      injection h with h
      subst h
      exact ⟨hn, fun q hq => rfl⟩
    | file c perms =>
      rw [mkdirP] at h
      rw [pseudoStatFs_file fs p c perms hn] at h
      simp [statPlainFile] at h
    | other t =>
      rw [mkdirP] at h
      by_cases hb : t = "block" <;> by_cases hc : t = "char" <;>
        by_cases hp : t = "pipe" <;> by_cases hsk : t = "socket" <;>
        simp_all [pseudoStatFs, pseudoStat, nodeTest]

theorem writeTempFile_none (env : WEnv) (fs : Fs) (lines : List String)
    (tmpfile : String) (h : lookupAssoc fs tmpfile = none) :
    writeTempFile env fs lines tmpfile = .ok (setAssoc fs tmpfile
      (.file (teeContent lines)
        { env.defaultPerms with mode := "rw-------" })) := by
  simp [writeTempFile, h]

theorem writeTempFile_ok (env : WEnv) (fs : Fs) (lines : List String)
    (tmpfile : String) (fs' : Fs)
    (h : writeTempFile env fs lines tmpfile = .ok fs') :
    (∃ perms, lookupAssoc fs' tmpfile =
      some (.file (teeContent lines) perms)) ∧
    ∀ q, q ≠ tmpfile → lookupAssoc fs' q = lookupAssoc fs q := by
  cases hn : lookupAssoc fs tmpfile with
  | none =>
    rw [writeTempFile_none env fs lines tmpfile hn] at h
    injection h with h
    subst h
    exact ⟨⟨_, lookupAssoc_setAssoc_self fs tmpfile _⟩,
      fun q hq => lookupAssoc_setAssoc_ne fs tmpfile q _ (Ne.symm hq)⟩
  | some node =>
    cases node with
    | file c perms =>
      simp only [writeTempFile, hn] at h
      injection h with h
      subst h
      exact ⟨⟨_, lookupAssoc_setAssoc_self fs tmpfile _⟩,
        fun q hq => lookupAssoc_setAssoc_ne fs tmpfile q _ (Ne.symm hq)⟩
    | dir => simp [writeTempFile, hn] at h
    | other t => simp [writeTempFile, hn] at h

theorem compare_not_exists (fs : Fs) (dest : String) (lines : List String)
    (perms : Option DesiredPerms) (selinux : Bool)
    (h : lookupAssoc fs dest = none) :
    compareContentAndPerms fs dest lines perms selinux =
      .ok (true, none, []) := by
  simp [compareContentAndPerms, pseudoStatFs_none fs dest h, statNoent]

theorem compare_unchanged (fs : Fs) (dest : String) (lines : List String)
    (perms : Option DesiredPerms) (selinux : Bool) (c : String)
    (fperms : FilePerms)
    (hc : lookupAssoc fs dest = some (.file c fperms))
    (hlines : pySplitLines c = lines)
    (hperm : ∀ ps, perms = some ps →
      permFieldDiff ps (mkObs fperms selinux) = false ∧
      (truthy ps.mode = true →
        convertOctalModeToSymbolic (ps.mode.getD "") = .ok fperms.mode)) :
    compareContentAndPerms fs dest lines perms selinux =
      .ok (false, some c, pySplitLines c) := by
  have hst := pseudoStatFs_file fs dest c fperms hc
  cases perms with
  | none =>
    simp [compareContentAndPerms, hst, statPlainFile, slurpFile, hc,
      getPerms, hlines]
  | some ps =>
    obtain ⟨hpf, hmode⟩ := hperm ps rfl
    simp only [mkObs] at hpf
    by_cases hm : truthy ps.mode = true
    · simp [compareContentAndPerms, hst, statPlainFile, slurpFile, hc,
        getPerms, hlines, mkObs, hpf, hm, hmode hm]
    · simp [compareContentAndPerms, hst, statPlainFile, slurpFile, hc,
        getPerms, hlines, mkObs, hpf, hm]

theorem chownFile_ok (env : WEnv) (fs : Fs) (p own : String) (fs' : Fs)
    (h : chownFile env fs p own = .ok fs') :
    (∀ q, q ≠ p → lookupAssoc fs' q = lookupAssoc fs q) ∧
    ∀ c perms, lookupAssoc fs p = some (.file c perms) →
      ∃ perms', lookupAssoc fs' p = some (.file c perms') := by
  unfold chownFile at h
  split at h
  · cases hn : lookupAssoc fs p with
    | none => simp [hn] at h
    | some node =>
      cases node with
      | file c0 perms0 =>
        simp only [hn] at h
        injection h with h
        subst h
        refine ⟨fun q hq => lookupAssoc_setAssoc_ne fs p q _ (Ne.symm hq),
          fun c perms hcp => ?_⟩
        have hinj : FsNode.file c0 perms0 = FsNode.file c perms :=
          Option.some.inj hcp
        injection hinj with hcp1 hcp2
        subst hcp1
        exact ⟨_, lookupAssoc_setAssoc_self fs p _⟩
      | dir => simp [hn] at h
      | other t => simp [hn] at h
  · exact absurd h (by simp)

theorem chgrpFile_ok (env : WEnv) (fs : Fs) (p grp : String) (fs' : Fs)
    (h : chgrpFile env fs p grp = .ok fs') :
    (∀ q, q ≠ p → lookupAssoc fs' q = lookupAssoc fs q) ∧
    ∀ c perms, lookupAssoc fs p = some (.file c perms) →
      ∃ perms', lookupAssoc fs' p = some (.file c perms') := by
  unfold chgrpFile at h
  split at h
  · cases hn : lookupAssoc fs p with
    | none => simp [hn] at h
    | some node =>
      cases node with
      | file c0 perms0 =>
        simp only [hn] at h
        injection h with h
        subst h
        refine ⟨fun q hq => lookupAssoc_setAssoc_ne fs p q _ (Ne.symm hq),
          fun c perms hcp => ?_⟩
        have hinj : FsNode.file c0 perms0 = FsNode.file c perms :=
          Option.some.inj hcp
        injection hinj with hcp1 hcp2
        subst hcp1
        exact ⟨_, lookupAssoc_setAssoc_self fs p _⟩
      | dir => simp [hn] at h
      | other t => simp [hn] at h
  · exact absurd h (by simp)

theorem chmodFile_ok (fs : Fs) (p mode : String) (fs' : Fs)
    (h : chmodFile fs p mode = .ok fs') :
    (∀ q, q ≠ p → lookupAssoc fs' q = lookupAssoc fs q) ∧
    ∀ c perms, lookupAssoc fs p = some (.file c perms) →
      ∃ perms', lookupAssoc fs' p = some (.file c perms') := by
  unfold chmodFile at h
  split at h
  · cases hn : lookupAssoc fs p with
    | none => simp [hn] at h
    | some node =>
      cases node with
      | file c0 perms0 =>
        simp only [hn] at h
        injection h with h
        subst h
        refine ⟨fun q hq => lookupAssoc_setAssoc_ne fs p q _ (Ne.symm hq),
          fun c perms hcp => ?_⟩
        have hinj : FsNode.file c0 perms0 = FsNode.file c perms :=
          Option.some.inj hcp
        injection hinj with hcp1 hcp2
        subst hcp1
        exact ⟨_, lookupAssoc_setAssoc_self fs p _⟩
      | dir => simp [hn] at h
      | other t => simp [hn] at h
  · exact absurd h (by simp)

theorem handleSelinuxContext_ok (env : WEnv) (fs : Fs) (dest : String)
    (perms : Option DesiredPerms) (fs' : Fs)
    (h : handleSelinuxContext env fs dest perms = .ok fs') :
    (∀ q, q ≠ dest → lookupAssoc fs' q = lookupAssoc fs q) ∧
    ∀ c fperms, lookupAssoc fs dest = some (.file c fperms) →
      ∃ fperms', lookupAssoc fs' dest = some (.file c fperms') := by
  cases perms with
  | none =>
    simp only [handleSelinuxContext] at h
    injection h with h
    subst h
    exact ⟨fun q hq => rfl, fun c fperms hcp => ⟨fperms, hcp⟩⟩
  | some ps =>
    simp only [handleSelinuxContext] at h
    split at h
    · injection h with h
      subst h
      exact ⟨fun q hq => rfl, fun c fperms hcp => ⟨fperms, hcp⟩⟩
    · split at h
      · cases hn : lookupAssoc fs dest with
        | none => simp [hn] at h
        | some node =>
          cases node with
          | file c0 perms0 =>
            simp only [hn] at h
            injection h with h
            subst h
            refine ⟨fun q hq =>
              lookupAssoc_setAssoc_ne fs dest q _ (Ne.symm hq),
              fun c fperms hcp => ?_⟩
            have hinj : FsNode.file c0 perms0 = FsNode.file c fperms :=
              Option.some.inj hcp
            injection hinj with hcp1 hcp2
            subst hcp1
            exact ⟨_, lookupAssoc_setAssoc_self fs dest _⟩
          | dir => simp [hn] at h
          | other t => simp [hn] at h
      · split at h
        · exact absurd h (by simp)
        · cases hn : lookupAssoc fs dest with
          | none => simp [hn] at h
          | some node =>
            cases node with
            | file c0 perms0 =>
              simp only [hn] at h
              injection h with h
              subst h
              refine ⟨fun q hq =>
                lookupAssoc_setAssoc_ne fs dest q _ (Ne.symm hq),
                fun c fperms hcp => ?_⟩
              have hinj : FsNode.file c0 perms0 = FsNode.file c fperms :=
                Option.some.inj hcp
              injection hinj with hcp1 hcp2
              subst hcp1
              exact ⟨_, lookupAssoc_setAssoc_self fs dest _⟩
            | dir => simp [hn] at h
            | other t => simp [hn] at h

theorem applyOwnership_ok (env : WEnv) (fs : Fs) (dest : String)
    (perms : Option DesiredPerms) (fs' : Fs)
    (h : applyOwnership env fs dest perms = .ok fs') :
    (∀ q, q ≠ dest → lookupAssoc fs' q = lookupAssoc fs q) ∧
    ∀ c fperms, lookupAssoc fs dest = some (.file c fperms) →
      ∃ fperms', lookupAssoc fs' dest = some (.file c fperms') := by
  cases perms with
  | none =>
    simp only [applyOwnership] at h
    injection h with h
    subst h
    exact ⟨fun q hq => rfl, fun c fperms hcp => ⟨fperms, hcp⟩⟩
  | some ps =>
    simp only [applyOwnership] at h
    cases h1 : (if truthy ps.owner then
        chownFile env fs dest (ps.owner.getD "") else .ok fs) with
    | error e => simp [h1] at h
    | ok fs1 =>
      simp only [h1] at h
      cases h2 : (if truthy ps.group then
          chgrpFile env fs1 dest (ps.group.getD "") else .ok fs1) with
      | error e => simp [h2] at h
      | ok fs2 =>
        simp only [h2] at h
        have p1 : (∀ q, q ≠ dest → lookupAssoc fs1 q = lookupAssoc fs q) ∧
            ∀ c fperms, lookupAssoc fs dest = some (.file c fperms) →
              ∃ fperms', lookupAssoc fs1 dest = some (.file c fperms') := by
          by_cases ho : truthy ps.owner = true
          · rw [if_pos ho] at h1
            exact chownFile_ok env fs dest _ fs1 h1
          · rw [if_neg ho] at h1
            injection h1 with h1
            subst h1
            exact ⟨fun q hq => rfl, fun c fperms hcp => ⟨fperms, hcp⟩⟩
        have p2 : (∀ q, q ≠ dest → lookupAssoc fs2 q = lookupAssoc fs1 q) ∧
            ∀ c fperms, lookupAssoc fs1 dest = some (.file c fperms) →
              ∃ fperms', lookupAssoc fs2 dest = some (.file c fperms') := by
          by_cases hg : truthy ps.group = true
          · rw [if_pos hg] at h2
            exact chgrpFile_ok env fs1 dest _ fs2 h2
          · rw [if_neg hg] at h2
            injection h2 with h2
            subst h2
            exact ⟨fun q hq => rfl, fun c fperms hcp => ⟨fperms, hcp⟩⟩
        have p3 : (∀ q, q ≠ dest → lookupAssoc fs' q = lookupAssoc fs2 q) ∧
            ∀ c fperms, lookupAssoc fs2 dest = some (.file c fperms) →
              ∃ fperms', lookupAssoc fs' dest = some (.file c fperms') := by
          by_cases hm : truthy ps.mode = true
          · rw [if_pos hm] at h
            exact chmodFile_ok fs2 dest _ fs' h
          · rw [if_neg hm] at h
            injection h with h
            subst h
            exact ⟨fun q hq => rfl, fun c fperms hcp => ⟨fperms, hcp⟩⟩
        refine ⟨fun q hq => (p3.1 q hq).trans ((p2.1 q hq).trans (p1.1 q hq)),
          fun c fperms hcp => ?_⟩
        obtain ⟨f1, h1d⟩ := p1.2 c fperms hcp
        obtain ⟨f2, h2d⟩ := p2.2 c f1 h1d
        exact p3.2 c f2 h2d

theorem verifyPerms_ok (fs : Fs) (dest : String) (ps : DesiredPerms)
    (selinux : Bool) (c : String) (fperms : FilePerms)
    (hd : lookupAssoc fs dest = some (.file c fperms))
    (h : verifyPerms fs dest (some ps) selinux = .ok ()) :
    permFieldDiff ps (mkObs fperms selinux) = false ∧
    (truthy ps.mode = true →
      convertOctalModeToSymbolic (ps.mode.getD "") = .ok fperms.mode) := by
  simp only [verifyPerms, getPerms, hd] at h
  by_cases hp : permFieldDiff ps (mkObs fperms selinux) = true
  · simp [hp] at h
  · have hp' : permFieldDiff ps (mkObs fperms selinux) = false := by
      simpa using hp
    refine ⟨hp', fun hm => ?_⟩
    simp only [hp', Bool.false_eq_true, if_false, hm, if_true] at h
    cases hcv : convertOctalModeToSymbolic (ps.mode.getD "") with
    | error e => simp [hcv] at h
    | ok expected =>
      simp only [hcv, mkObs] at h
      simp at h
      exact congrArg Except.ok h.symm

theorem applyPermsAndSelinux_ok (env : WEnv) (fs : Fs) (dest : String)
    (perms : Option DesiredPerms) (selinux : Bool) (fs' : Fs)
    (c : String) (fperms : FilePerms)
    (hd : lookupAssoc fs dest = some (.file c fperms))
    (h : applyPermsAndSelinux env fs dest perms selinux = .ok fs') :
    (∀ q, q ≠ dest → lookupAssoc fs' q = lookupAssoc fs q) ∧
    ∃ fperms', lookupAssoc fs' dest = some (.file c fperms') ∧
      ∀ ps, perms = some ps →
        permFieldDiff ps (mkObs fperms' selinux) = false ∧
        (truthy ps.mode = true →
          convertOctalModeToSymbolic (ps.mode.getD "") = .ok fperms'.mode) := by
  simp only [applyPermsAndSelinux] at h
  cases h1 : applyOwnership env fs dest perms with
  | error e => simp [h1] at h
  | ok fs1 =>
    simp only [h1] at h
    cases h2 : (if selinux then handleSelinuxContext env fs1 dest perms
        else .ok fs1) with
    | error e => simp [h2] at h
    | ok fs2 =>
      simp only [h2] at h
      cases h3 : verifyPerms fs2 dest perms selinux with
      | error e => simp [h3] at h
      | ok u =>
        cases u
        simp only [h3] at h
        injection h with h
        subst h
        obtain ⟨q1, d1⟩ := applyOwnership_ok env fs dest perms fs1 h1
        obtain ⟨f1, h1d⟩ := d1 c fperms hd
        have p2 : (∀ q, q ≠ dest → lookupAssoc fs2 q = lookupAssoc fs1 q) ∧
            ∃ f2, lookupAssoc fs2 dest = some (.file c f2) := by
          by_cases hsel : selinux = true
          · rw [if_pos hsel] at h2
            obtain ⟨q2, d2⟩ :=
              handleSelinuxContext_ok env fs1 dest perms fs2 h2
            exact ⟨q2, d2 c f1 h1d⟩
          · rw [if_neg hsel] at h2
            injection h2 with h2
            subst h2
            exact ⟨fun q hq => rfl, ⟨f1, h1d⟩⟩
        obtain ⟨q2, f2, h2d⟩ := p2
        refine ⟨fun q hq => (q2 q hq).trans (q1 q hq), f2, h2d,
          fun ps hps => ?_⟩
        subst hps
        exact verifyPerms_ok fs2 dest ps selinux c f2 h2d h3

/-- C1 amended: starting from a host where the destination does not
exist (and the private temp path is fresh), two successive successful
_write_file calls with identical content and desired permissions (not
in check mode) report changed=true then changed=false, and the
destination's content and permissions are identical after both calls —
provided the normalized line sequence survives the tee/slurp round
trip (no line-break characters inside lines and no trailing empty
line), which the counterexample shows is necessary. -/
theorem write_file_idempotent
    (env : WEnv) (fs : Fs) (content : ContentArg) (dest : String)
    (perms : Option DesiredPerms) (backup : Bool)
    (validateCmd : Option String)
    (r1 : WriteResult) (fs1 : Fs) (r2 : WriteResult) (fs2 : Fs)
    (hdest : lookupAssoc fs dest = none)
    (htmp : lookupAssoc fs (env.tmpdir ++ "/ansible_tmpfile") = none)
    (hd1 : dest ≠ env.tmpdir)
    (hd2 : dest ≠ env.tmpdir ++ "/ansible_tmpfile")
    (hclean : pySplitLines (teeContent (normalizeContent content).1) =
      (normalizeContent content).1)
    (h1 : writeFile env fs content dest perms backup validateCmd false =
      .ok (r1, fs1))
    (h2 : writeFile env fs1 content dest perms backup validateCmd false =
      .ok (r2, fs2)) :
    r1.changed = true ∧ r2.changed = false ∧
    lookupAssoc fs2 dest = lookupAssoc fs1 dest := by
  have htmp_ne_dir : env.tmpdir ++ "/ansible_tmpfile" ≠ env.tmpdir :=
    str_append_ne _ _ (by decide)
  simp only [writeFile] at h1
  rw [pseudoStatFs_none fs dest hdest] at h1
  simp only [statNoent, Bool.false_eq_true, false_and, if_false] at h1
  cases hsel : checkSelinuxTools perms env.hasChcon env.hasSemanage with
  | error e => simp [hsel] at h1
  | ok selRes =>
  simp only [hsel] at h1
  cases hmk : mkdirP fs env.tmpdir with
  | error e => simp [hmk] at h1
  | ok fsA =>
  simp only [hmk] at h1
  obtain ⟨hmkDir, hmkPres⟩ := mkdirP_ok fs env.tmpdir fsA hmk
  have hAtmp : lookupAssoc fsA (env.tmpdir ++ "/ansible_tmpfile") = none := by
    rw [hmkPres _ htmp_ne_dir, htmp]
  cases hwt : writeTempFile env fsA (normalizeContent content).1
      (env.tmpdir ++ "/ansible_tmpfile") with
  | error e => simp [hwt] at h1
  | ok fsB =>
  simp only [hwt] at h1
  obtain ⟨⟨permsT, hwtT⟩, hwtPres⟩ := writeTempFile_ok env fsA _ _ fsB hwt
  cases hv : validateStep env validateCmd
      (teeContent (normalizeContent content).1) with
  | error e => simp [hv] at h1
  | ok u =>
  cases u
  simp only [hv] at h1
  have hBdest : lookupAssoc fsB dest = none := by
    rw [hwtPres dest hd2, hmkPres dest hd1, hdest]
  have hbk : (if backup then createBackup env fsB dest else (none, fsB)) =
      ((none : Option String), fsB) := by
    cases backup with
    | false => rfl
    | true => simp [createBackup, hBdest]
  simp only [hbk] at h1
  rw [compare_not_exists fsB dest (normalizeContent content).1 perms
    selRes.1 hBdest] at h1
  simp only [Bool.false_eq_true, if_false, if_true] at h1
  simp only [hwtT] at h1
  have hremove : removeAssoc fsB (env.tmpdir ++ "/ansible_tmpfile") = fsA := by
    rw [writeTempFile_none env fsA _ _ hAtmp] at hwt
    injection hwt with hwt
    rw [← hwt, setAssoc_eq_append _ _ _ hAtmp,
      removeAssoc_append_self _ _ _ hAtmp]
  rw [hremove] at h1
  cases happ : applyPermsAndSelinux env
      (setAssoc fsA dest
        (FsNode.file (teeContent (normalizeContent content).1) permsT))
      dest perms selRes.1 with
  | error e => simp [happ] at h1
  | ok fsF =>
  simp only [happ] at h1
  injection h1 with h1
  injection h1 with hr1 hfs1
  have hMdest : lookupAssoc (setAssoc fsA dest
      (FsNode.file (teeContent (normalizeContent content).1) permsT)) dest =
      some (FsNode.file (teeContent (normalizeContent content).1) permsT) :=
    lookupAssoc_setAssoc_self fsA dest _
  obtain ⟨hFpres, fperms', hFdest, hFprops⟩ :=
    applyPermsAndSelinux_ok env _ dest perms selRes.1 fsF _ permsT hMdest happ
  have hfs1dir : lookupAssoc fsF env.tmpdir = some FsNode.dir := by
    rw [hFpres env.tmpdir (Ne.symm hd1),
      lookupAssoc_setAssoc_ne fsA dest env.tmpdir _ hd1, hmkDir]
  have hfs1tmp : lookupAssoc fsF (env.tmpdir ++ "/ansible_tmpfile") =
      none := by
    rw [hFpres _ (Ne.symm hd2),
      lookupAssoc_setAssoc_ne fsA dest _ _ hd2, hAtmp]
  subst hfs1
  -- second call
  simp only [writeFile] at h2
  rw [pseudoStatFs_file fsF dest _ _ hFdest] at h2
  simp only [statPlainFile, ne_eq, not_true_eq_false, and_false,
    if_false] at h2
  simp only [hsel] at h2
  simp only [mkdirP_dir fsF env.tmpdir hfs1dir] at h2
  simp only [writeTempFile_none env fsF _ _ hfs1tmp] at h2
  simp only [hv] at h2
  have hB2dest : lookupAssoc (setAssoc fsF
      (env.tmpdir ++ "/ansible_tmpfile")
      (FsNode.file (teeContent (normalizeContent content).1)
        { env.defaultPerms with mode := "rw-------" })) dest =
      some (FsNode.file (teeContent (normalizeContent content).1)
        fperms') := by
    rw [lookupAssoc_setAssoc_ne fsF _ dest _ (Ne.symm hd2), hFdest]
  have hbk2dest : lookupAssoc
      (if backup then createBackup env (setAssoc fsF
        (env.tmpdir ++ "/ansible_tmpfile")
        (FsNode.file (teeContent (normalizeContent content).1)
          { env.defaultPerms with mode := "rw-------" })) dest
       else (none, setAssoc fsF (env.tmpdir ++ "/ansible_tmpfile")
        (FsNode.file (teeContent (normalizeContent content).1)
          { env.defaultPerms with mode := "rw-------" }))).2 dest =
      some (FsNode.file (teeContent (normalizeContent content).1)
        fperms') := by
    cases backup with
    | false => exact hB2dest
    | true =>
      simp only [createBackup, hB2dest, if_true]
      rw [lookupAssoc_setAssoc_ne _ _ dest _ (backup_path_ne dest _),
        hB2dest]
  simp only [compare_unchanged _ dest (normalizeContent content).1 perms
    selRes.1 (teeContent (normalizeContent content).1) fperms' hbk2dest
    hclean hFprops] at h2
  simp only [Bool.false_eq_true, if_false] at h2
  injection h2 with h2
  injection h2 with hr2 hfs2
  subst hfs2
  refine ⟨by rw [← hr1], by rw [← hr2], ?_⟩
  rw [hbk2dest, hFdest]

/-- The perms of /etc/motd after the demo write (mode 0644 applied). -/
def motdPerms : FilePerms :=
  { mode := "rw-r--r--", owner := "root", group := "root",
    ctx := defaultCtx }

/-- The perms of the demo temp file (chmod 0600). -/
def tmp0600Perms : FilePerms :=
  { mode := "rw-------", owner := "root", group := "root",
    ctx := defaultCtx }

/-- Demo filesystem after the first write. -/
def fs1Demo : Fs :=
  [("/tmp/ansible.abc123", FsNode.dir),
   ("/etc/motd", FsNode.file "hello\n" motdPerms)]

/-- Demo filesystem after the second write (only the temp file was
recreated; the destination is untouched). -/
def fs2Demo : Fs :=
  [("/tmp/ansible.abc123", FsNode.dir),
   ("/etc/motd", FsNode.file "hello\n" motdPerms),
   ("/tmp/ansible.abc123/ansible_tmpfile",
     FsNode.file "hello\n" tmp0600Perms)]

/-- Witness for the amended C1 at a concrete host: writing "hello\n"
with mode 0644 to a fresh /etc/motd twice. -/
theorem write_file_idempotent_witness :
    ∃ r1 fs1 r2 fs2,
      writeFile envDemo [] (.str "hello\n") "/etc/motd"
        (some { mode := some "0644" }) false none false = .ok (r1, fs1) ∧
      writeFile envDemo fs1 (.str "hello\n") "/etc/motd"
        (some { mode := some "0644" }) false none false = .ok (r2, fs2) ∧
      r1.changed = true ∧ r2.changed = false ∧
      lookupAssoc fs2 "/etc/motd" = lookupAssoc fs1 "/etc/motd" := by
  have h1 : writeFile envDemo [] (.str "hello\n") "/etc/motd"
      (some { mode := some "0644" }) false none false =
      .ok ({ changed := true, msg := "File written successfully",
             rc := 0, backup_file := none }, fs1Demo) := rfl
  have h2 : writeFile envDemo fs1Demo (.str "hello\n") "/etc/motd"
      (some { mode := some "0644" }) false none false =
      .ok ({ changed := false, msg := "File not changed",
             rc := 0, backup_file := none }, fs2Demo) := rfl
  have hmain := write_file_idempotent envDemo [] (.str "hello\n")
    "/etc/motd" (some { mode := some "0644" }) false none _ fs1Demo _
    fs2Demo rfl rfl (by decide) (by decide) rfl h1 h2
  exact ⟨_, fs1Demo, _, fs2Demo, h1, h2, hmain.1, hmain.2.1, hmain.2.2⟩
